import Mathlib

/-!
Verification model of the circular-buffer lifecycle manager of
OBSReplayCompanion (src/GameCapture.h, src/GameCapture.cpp).

The C++ class `GameCapture` is embedded as a Lean state machine:
its member fields become fields of `GCState`, each method becomes a
Lean function on `GCState`, and the asynchronous engine notifications
(the "stop" and "saved" signals, the QTimer timeouts, the queued
post-save reset) become explicit operations (`Op`) applied to the
state.  Fallible engine calls (`obs_video_encoder_create`,
`obs_output_create`, `obs_output_start`, the "save" procedure call)
are parameterised by boolean oracles so that reachability covers both
success and failure paths.  `float` fields (volumes, thresholds) are
modelled as `Int` values: the code only ever stores and compares them
for equality, never does arithmetic on them.  Creation counters count
how many times each native object kind has been (re)created, which is
how the spec's "recreation counter" properties are stated.
-/

namespace OBSReplay

/-- EncoderType enum from GameCapture.h. -/
inductive EncoderType
  | NVENC_H264
  | NVENC_HEVC
  | QSV_H264
  | QSV_HEVC
  | AMF_H264
  | AMF_HEVC
  | X264
  | X265
deriving DecidableEq, Repr

/-- CaptureSettings from GameCapture.h. -/
structure CaptureSettings where
  width : Int := 1920
  height : Int := 1080
  fps : Int := 60
  captureCursor : Bool := true
deriving DecidableEq, Repr

/-- AudioSettings from GameCapture.h (volume is a float in C++, modelled
as an Int since only equality comparisons and pass-through occur). -/
structure AudioSettings where
  enabled : Bool := true
  sampleRate : Int := 48000
  bitrate : Int := 192
  channels : Int := 2
  volume : Int := 1
  deviceId : String := "default"
  deviceName : String := "Default"
deriving DecidableEq, Repr

/-- AudioSettings::operator== — compares only enabled, bitrate and
deviceId; volume and the other fields are deliberately excluded. -/
def AudioSettings.eq (a b : AudioSettings) : Prop :=
  a.enabled = b.enabled ∧ a.bitrate = b.bitrate ∧ a.deviceId = b.deviceId

instance (a b : AudioSettings) : Decidable (AudioSettings.eq a b) := by
  unfold AudioSettings.eq; infer_instance

/-- MicrophoneSettings from GameCapture.h (floats modelled as Int). -/
structure MicrophoneSettings where
  enabled : Bool := false
  sampleRate : Int := 48000
  channels : Int := 1
  volume : Int := 1
  deviceId : String := "default"
  deviceName : String := "Default Microphone"
  noiseSuppression : Bool := true
  noiseGate : Bool := false
  noiseGateThreshold : Int := -30
  noiseGateCloseThreshold : Int := -32
  noiseGateHoldTime : Int := 200
  noiseGateReleaseTime : Int := 150
deriving DecidableEq, Repr

/-- MicrophoneSettings::operator== — compares only enabled and deviceId. -/
def MicrophoneSettings.eq (a b : MicrophoneSettings) : Prop :=
  a.enabled = b.enabled ∧ a.deviceId = b.deviceId

instance (a b : MicrophoneSettings) : Decidable (MicrophoneSettings.eq a b) := by
  unfold MicrophoneSettings.eq; infer_instance

/-- EncodingSettings from GameCapture.h, with every field of the C++
struct, including the vendor-specific parameter bags. -/
structure EncodingSettings where
  encoder : EncoderType := .X264
  bitrate : Int := 8000
  use_cbr : Bool := true
  crf : Int := 22
  keyint_sec : Int := 0
  x264Preset : String := "veryfast"
  x264Profile : String := "high"
  x264Tune : String := "none"
  x264opts : String := ""
  nvencPreset : String := "p5"
  nvencTuning : String := "hq"
  nvencMultipass : String := "qres"
  nvencProfile : String := "high"
  nvencLookahead : Bool := false
  nvencPsychoVisualTuning : Bool := true
  nvencGpu : Int := 0
  nvencMaxBFrames : Int := 2
  qsvPreset : String := "balanced"
  qsvProfile : String := "high"
  qsvLowPower : Bool := false
  amfUsage : String := "quality"
  amfProfile : String := "high"
  amf_bframes : Int := 2
  amf_opts : String := ""
deriving DecidableEq, Repr

/-- EncodingSettings::operator== — compares the cheap fields first and
then every vendor-specific string field, regardless of which encoder
kind is selected. -/
def EncodingSettings.eq (a b : EncodingSettings) : Prop :=
  (a.encoder = b.encoder ∧ a.bitrate = b.bitrate ∧ a.use_cbr = b.use_cbr ∧
   a.crf = b.crf ∧ a.keyint_sec = b.keyint_sec ∧
   a.nvencLookahead = b.nvencLookahead ∧
   a.nvencPsychoVisualTuning = b.nvencPsychoVisualTuning ∧
   a.nvencGpu = b.nvencGpu ∧ a.nvencMaxBFrames = b.nvencMaxBFrames ∧
   a.qsvLowPower = b.qsvLowPower ∧ a.amf_bframes = b.amf_bframes) ∧
  (a.x264Preset = b.x264Preset ∧ a.x264Profile = b.x264Profile ∧
   a.x264Tune = b.x264Tune ∧ a.x264opts = b.x264opts ∧
   a.nvencPreset = b.nvencPreset ∧ a.nvencTuning = b.nvencTuning ∧
   a.nvencMultipass = b.nvencMultipass ∧ a.nvencProfile = b.nvencProfile ∧
   a.qsvPreset = b.qsvPreset ∧ a.qsvProfile = b.qsvProfile ∧
   a.amfUsage = b.amfUsage ∧ a.amfProfile = b.amfProfile ∧
   a.amf_opts = b.amf_opts)

instance (a b : EncodingSettings) : Decidable (EncodingSettings.eq a b) := by
  unfold EncodingSettings.eq; infer_instance

/-! ## Path derivation (static helper GetPathForGameName) -/

/-- Characters matched by the invalid-character regex
`[<>:"/\\|?*]` in GetPathForGameName. -/
def isInvalidPathChar (c : Char) : Bool :=
  c = '<' || c = '>' || c = ':' || c = '\"' || c = '/' || c = '\\' ||
  c = '|' || c = '?' || c = '*'

/-- ASCII whitespace recognised by QString::trimmed (QChar::isSpace):
space and the control characters 0x09..0x0D.  Unicode separator
characters are outside the model. -/
def isQtSpace (c : Char) : Bool :=
  c = ' ' || c = '\t' || c = '\n' || c = '\x0b' || c = '\x0c' || c = '\r'

/-- QString::replace with the invalid-character class: every matching
character is replaced by an underscore. -/
def replaceInvalidChars (s : String) : String :=
  String.mk (s.data.map (fun c => if isInvalidPathChar c then '_' else c))

/-- QString::trimmed — strips whitespace from both ends. -/
def qtrimmed (s : String) : String :=
  String.mk (((s.data.dropWhile isQtSpace).reverse.dropWhile isQtSpace).reverse)

/-- GetPathForGameName from GameCapture.cpp: "General" for empty or
"Unknown" names, otherwise the sanitized and trimmed name, falling back
to "General" when sanitization leaves an empty string. -/
def getPathForGameName (outputFolder gameName : String) : String :=
  let baseFolder := outputFolder
  if gameName = "" ∨ gameName = "Unknown" then
    baseFolder ++ "/General"
  else
    let cleanGameName := qtrimmed (replaceInvalidChars gameName)
    if cleanGameName = "" then baseFolder ++ "/General"
    else baseFolder ++ "/" ++ cleanGameName

/-- Modelled from the spec's output-folder naming contract (for
comparison against `getPathForGameName`): root/General for empty,
"Unknown", or empty-after-sanitize names, otherwise root/<name> with
the characters <>:"/\|?* replaced by _ and the result trimmed. -/
def specPathForGameName (root rawName : String) : String :=
  if rawName = "" ∨ rawName = "Unknown" ∨
     qtrimmed (replaceInvalidChars rawName) = "" then
    root ++ "/General"
  else
    root ++ "/" ++ qtrimmed (replaceInvalidChars rawName)

/-! ## Native engine objects owned by the manager -/

/-- A buffer video encoder handle (obs_encoder_t held in
m_bufferVideoEncoder); `id` distinguishes creations. -/
structure VideoEncoder where
  id : Nat
deriving DecidableEq, Repr

/-- A buffer audio encoder handle (m_bufferAudioEncoder); records the
CBR bitrate it was created with. -/
structure AudioEncoder where
  id : Nat
  bitrate : Int
deriving DecidableEq, Repr

/-- The desktop audio source handle (m_desktopAudioSource). -/
structure AudioSource where
  id : Nat
  deviceId : String
  volume : Int
  enabled : Bool
deriving DecidableEq, Repr

/-- The microphone source handle (m_microphoneSource); `noiseFilter`
holds the attached noise-suppression filter's enabled flag when the
filter exists. -/
structure MicSource where
  id : Nat
  deviceId : String
  volume : Int
  enabled : Bool
  noiseFilter : Option Bool
deriving DecidableEq, Repr

/-- The replay-buffer output handle (m_bufferOutput).  `videoEncs` and
`audioEncs` are the encoder ids attached via
obs_output_set_video_encoder / obs_output_set_audio_encoder;
`stopConnections` and `savedConnections` count live
signal_handler_connect registrations for the "stop" and "saved"
signals on this output. -/
structure BufferOutput where
  id : Nat
  videoEncs : List Nat
  audioEncs : List Nat
  active : Bool
  directory : String
  maxTimeSec : Int
  stopConnections : Nat
  savedConnections : Nat
deriving DecidableEq, Repr

/-- BufferState tracking struct from GameCapture.h. -/
structure BufferState where
  isActive : Bool := false
  lastEncodingSettings : EncodingSettings := {}
  lastAudioSettings : AudioSettings := {}
  lastMicrophoneSettings : MicrophoneSettings := {}
  lastBufferDuration : Int := 0
deriving DecidableEq, Repr

/-- BufferState::reset — back to defaults, forcing recreation on the
next start. -/
def BufferState.reset : BufferState := {}

/-- BufferState::hasEncodingChanges. -/
def BufferState.hasEncodingChanges (bs : BufferState) (current : EncodingSettings) : Prop :=
  ¬ EncodingSettings.eq bs.lastEncodingSettings current

instance (bs : BufferState) (c : EncodingSettings) :
    Decidable (bs.hasEncodingChanges c) := by
  unfold BufferState.hasEncodingChanges; infer_instance

/-- Qt signals emitted by GameCapture. -/
inductive QtSignal
  | recordingStarted
  | recordingFinished (success : Bool) (filename : String)
  | clippingModeChanged (active : Bool)
deriving DecidableEq, Repr

/-- The m_pendingBufferCallback closure: absent, the
CleanupCircularBuffer continuation, or the FastBufferReset restart
continuation. -/
inductive PendingCB
  | none
  | cleanup
  | fastReset
deriving DecidableEq, Repr

/-- Timeout constants from the GameCapture constructor and
SAVE_COOLDOWN_MS (milliseconds). -/
def SAVE_COOLDOWN_MS : Nat := 2000

/-- m_bufferStopTimer interval. -/
def BUFFER_STOP_TIMEOUT_MS : Nat := 3000

/-- m_saveClipTimeoutTimer interval. -/
def SAVE_CLIP_TIMEOUT_MS : Nat := 30000

/-- The GameCapture object state.  `now` is the wall clock in
milliseconds; `saveCooldownStart` mirrors m_saveCooldownTimer (a
QElapsedTimer started in the constructor; elapsed() = now -
saveCooldownStart).  The *Creations fields count how many times each
native object kind has been created, for the spec's recreation-counter
properties. -/
structure GCState where
  now : Nat := 0
  obsInitialized : Bool := false
  isRecording : Bool := false
  clippingModeActive : Bool := false
  settings : CaptureSettings := {}
  audioSettings : AudioSettings := {}
  microphoneSettings : MicrophoneSettings := {}
  encodingSettings : EncodingSettings := {}
  bufferState : BufferState := {}
  desktopAudioSource : Option AudioSource := Option.none
  microphoneSource : Option MicSource := Option.none
  bufferVideoEncoder : Option VideoEncoder := Option.none
  bufferAudioEncoder : Option AudioEncoder := Option.none
  bufferOutput : Option BufferOutput := Option.none
  bufferStopTimerRunning : Bool := false
  saveClipTimeoutTimerRunning : Bool := false
  pendingBufferCallback : PendingCB := .none
  saveCooldownStart : Nat := 0
  currentRecordingFile : String := ""
  outputFolder : String := ""
  currentGameName : String := ""
  cachedGameFolder : String := ""
  bufferDurationSeconds : Int := 60
  emitted : List QtSignal := []
  videoEncoderCreations : Nat := 0
  audioEncoderCreations : Nat := 0
  desktopSourceCreations : Nat := 0
  micSourceCreations : Nat := 0
  bufferOutputCreations : Nat := 0
  nextId : Nat := 0
deriving DecidableEq, Repr

/-- The state right after the GameCapture constructor: everything null
or default, timers idle, and the save-cooldown clock started (at
construction time 0). -/
def initialState : GCState := {}

/-- Engine oracle: outcomes of the fallible obs_* calls made during a
start cycle.  `stateValid` stands for ValidateOBSState's checks on the
engine's video geometry and audio format. -/
structure Eng where
  stateValid : Bool := true
  videoEncoderOk : Bool := true
  audioEncoderOk : Bool := true
  outputCreateOk : Bool := true
  outputStartOk : Bool := true
deriving DecidableEq, Repr

/-- Whether the buffer output exists and obs_output_active holds. -/
def GCState.outputActive (s : GCState) : Bool :=
  match s.bufferOutput with
  | Option.none => false
  | some out => out.active

/-- GetCurrentGameFolder — returns the cached folder, or derives and
caches it. -/
def getCurrentGameFolder (s : GCState) : String × GCState :=
  if s.cachedGameFolder ≠ "" then (s.cachedGameFolder, s)
  else
    let p := getPathForGameName s.outputFolder s.currentGameName
    (p, { s with cachedGameFolder := p })

/-- CreateAudioSource — builds a wasapi_output_capture source from the
current audio settings and applies volume/enabled immediately
(obs_source_create assumed to succeed). -/
def createAudioSource (s : GCState) : GCState :=
  let src : AudioSource :=
    { id := s.nextId
      deviceId := if s.audioSettings.deviceId = "" then "default" else s.audioSettings.deviceId
      volume := s.audioSettings.volume
      enabled := s.audioSettings.enabled }
  { s with desktopAudioSource := some src
           nextId := s.nextId + 1
           desktopSourceCreations := s.desktopSourceCreations + 1 }

/-- CreateMicrophoneSource — builds a wasapi_input_capture source,
applies volume/enabled, and attaches a noise-suppression filter iff
requested. -/
def createMicrophoneSource (s : GCState) : GCState :=
  let src : MicSource :=
    { id := s.nextId
      deviceId := if s.microphoneSettings.deviceId = "" then "default" else s.microphoneSettings.deviceId
      volume := s.microphoneSettings.volume
      enabled := s.microphoneSettings.enabled
      noiseFilter := if s.microphoneSettings.noiseSuppression then some true else Option.none }
  { s with microphoneSource := some src
           nextId := s.nextId + 1
           micSourceCreations := s.micSourceCreations + 1 }

/-- disconnectReplayBufferSignals — removes this object's "saved"
signal connection from the buffer output, if the output exists. -/
def disconnectReplayBufferSignals (s : GCState) : GCState :=
  match s.bufferOutput with
  | Option.none => s
  | some out =>
      { s with bufferOutput := some { out with savedConnections := out.savedConnections - 1 } }

/-- completeBufferCleanup — releases the buffer output handle and
clears BufferState.isActive. -/
def completeBufferCleanup (s : GCState) : GCState :=
  { s with bufferOutput := Option.none
           bufferState := { s.bufferState with isActive := false } }

/-- CleanupCircularBuffer — no-op when no output exists and the buffer
is inactive; otherwise disconnects the "saved" signal and either
completes synchronously (output absent or not running) or registers
the asynchronous stop path: pending cleanup continuation, "stop"
signal connection, 3s stop timer, obs_output_stop. -/
def cleanupCircularBuffer (s : GCState) : GCState :=
  if s.bufferOutput = Option.none ∧ s.bufferState.isActive = false then s
  else
    let s1 := disconnectReplayBufferSignals s
    match s1.bufferOutput with
    | some out =>
        if out.active then
          { s1 with pendingBufferCallback := .cleanup
                    bufferOutput := some { out with stopConnections := out.stopConnections + 1 }
                    bufferStopTimerRunning := true }
        else completeBufferCleanup s1
    | Option.none => completeBufferCleanup s1

/-- StopClippingMode — no-op when clipping mode is off; otherwise
clears the saving flag (disconnecting the "saved" handler), runs
CleanupCircularBuffer, drops the active flag and emits
clippingModeChanged(false). -/
def stopClippingMode (s : GCState) : GCState :=
  if s.clippingModeActive = false then s
  else
    let s1 := if s.isRecording then
                disconnectReplayBufferSignals { s with isRecording := false }
              else s
    let s2 := cleanupCircularBuffer s1
    { s2 with clippingModeActive := false
              emitted := .clippingModeChanged false :: s2.emitted }

/-- UpdateBufferVideoEncoder — recreates the buffer video encoder iff
none exists or the encoding settings changed since the last start;
CreateEncoder's outcome (including its internal x264 fallback) is the
oracle's videoEncoderOk. -/
def updateBufferVideoEncoder (eng : Eng) (s : GCState) : Bool × GCState :=
  let needsRecreation :=
    s.bufferVideoEncoder = Option.none ∨ s.bufferState.hasEncodingChanges s.encodingSettings
  if ¬ needsRecreation then (true, s)
  else
    let s1 := { s with bufferVideoEncoder := Option.none }
    if eng.videoEncoderOk then
      (true, { s1 with bufferVideoEncoder := some ⟨s1.nextId⟩
                       nextId := s1.nextId + 1
                       videoEncoderCreations := s1.videoEncoderCreations + 1 })
    else (false, s1)

/-- Desktop-audio block of UpdateBufferAudioComponents: recreate the
source when `changed` (no source yet, or device id differs from the
last applied settings), then always apply the current volume and
enabled state to the source. -/
def desktopAudioStep (changed : Prop) [Decidable changed] (s : GCState) : GCState :=
  let s1 := if changed then createAudioSource s else s
  match s1.desktopAudioSource with
  | some src =>
      let src1 : AudioSource :=
        { src with volume := s1.audioSettings.volume,
                   enabled := s1.audioSettings.enabled }
      { s1 with desktopAudioSource := some src1 }
  | Option.none => s1

/-- Microphone block of UpdateBufferAudioComponents: recreate (or drop)
the source when `changed` or when absent while enabled, then apply
volume/enabled and reconcile the noise-suppression filter (add it or
toggle its enabled flag; never remove it). -/
def micSourceStep (changed : Prop) [Decidable changed] (s : GCState) : GCState :=
  let s3 :=
    if changed ∨ (s.microphoneSource = Option.none ∧ s.microphoneSettings.enabled) then
      if s.microphoneSettings.enabled then createMicrophoneSource s
      else { s with microphoneSource := Option.none }
    else s
  match s3.microphoneSource with
  | some mic =>
      let mic1 := { mic with volume := s3.microphoneSettings.volume,
                             enabled := s3.microphoneSettings.enabled }
      let mic2 :=
        if s3.microphoneSettings.noiseSuppression then
          match mic1.noiseFilter with
          | Option.none => { mic1 with noiseFilter := some true }
          | some _ => { mic1 with noiseFilter := some true }
        else
          match mic1.noiseFilter with
          | Option.none => mic1
          | some _ => { mic1 with noiseFilter := some false }
      { s3 with microphoneSource := some mic2 }
  | Option.none => s3

/-- Audio-encoder block of UpdateBufferAudioComponents: recreate the
encoder when `changed` (no encoder yet, or audio bitrate differs from
the last applied settings). -/
def audioEncoderStep (eng : Eng) (changed : Prop) [Decidable changed]
    (s : GCState) : Bool × GCState :=
  if changed then
    let s5 := { s with bufferAudioEncoder := Option.none }
    if eng.audioEncoderOk then
      (true, { s5 with bufferAudioEncoder := some ⟨s5.nextId, s5.audioSettings.bitrate⟩
                       nextId := s5.nextId + 1
                       audioEncoderCreations := s5.audioEncoderCreations + 1 })
    else (false, s5)
  else (true, s)

/-- UpdateBufferAudioComponents — the three per-component recreation
decisions are computed up front from BufferState, then the desktop
source, microphone source, and audio encoder blocks run in order. -/
def updateBufferAudioComponents (eng : Eng) (s : GCState) : Bool × GCState :=
  audioEncoderStep eng
    (s.bufferAudioEncoder = Option.none ∨
      s.bufferState.lastAudioSettings.bitrate ≠ s.audioSettings.bitrate)
    (micSourceStep
      (s.microphoneSource = Option.none ∨
        s.bufferState.lastMicrophoneSettings.deviceId ≠ s.microphoneSettings.deviceId)
      (desktopAudioStep
        (s.desktopAudioSource = Option.none ∨
          s.bufferState.lastAudioSettings.deviceId ≠ s.audioSettings.deviceId)
        s))

/-- CreateBufferOutput — no-op if the output already exists; fails
without valid encoders; otherwise creates the replay_buffer output
with the game folder directory and duration and attaches exactly the
current video and audio encoders. -/
def createBufferOutput (eng : Eng) (s : GCState) : Bool × GCState :=
  match s.bufferOutput with
  | some _ => (true, s)
  | Option.none =>
    match s.bufferVideoEncoder, s.bufferAudioEncoder with
    | some ve, some ae =>
        let (dir, s1) := getCurrentGameFolder s
        if eng.outputCreateOk then
          (true, { s1 with
                    bufferOutput := some
                      { id := s1.nextId
                        videoEncs := [ve.id]
                        audioEncs := [ae.id]
                        active := false
                        directory := dir
                        maxTimeSec := s1.bufferDurationSeconds
                        stopConnections := 0
                        savedConnections := 0 }
                    nextId := s1.nextId + 1
                    bufferOutputCreations := s1.bufferOutputCreations + 1 })
        else (false, s1)
    | _, _ => (false, s)

/-- StartBufferOutput — needs an output and a video encoder; succeeds
immediately if already active; otherwise obs_output_start per the
oracle (the delayed encoder-settings reapply is engine-side). -/
def startBufferOutput (eng : Eng) (s : GCState) : Bool × GCState :=
  match s.bufferOutput with
  | Option.none => (false, s)
  | some out =>
      if s.bufferVideoEncoder = Option.none then (false, s)
      else if out.active then (true, s)
      else if eng.outputStartOk then
        (true, { s with bufferOutput := some { out with active := true } })
      else (false, s)

/-- UpdateBufferSettings — requires an output; pushes the buffer
duration into the output iff it differs from the last applied one. -/
def updateBufferSettings (s : GCState) : Bool × GCState :=
  match s.bufferOutput with
  | Option.none => (false, s)
  | some out =>
      if s.bufferDurationSeconds ≠ s.bufferState.lastBufferDuration then
        (true, { s with
                  bufferOutput := some { out with maxTimeSec := s.bufferDurationSeconds }
                  bufferState := { s.bufferState with lastBufferDuration := s.bufferDurationSeconds } })
      else (true, s)

/-- SetupCircularBuffer — validates the engine state, routes to
UpdateBufferSettings when the buffer is already active, otherwise runs
the recreate-as-needed chain and on success snapshots the applied
profiles into BufferState. -/
def setupCircularBuffer (eng : Eng) (s : GCState) : Bool × GCState :=
  if ¬ (s.obsInitialized = true ∧ eng.stateValid = true) then (false, s)
  else if s.bufferState.isActive then updateBufferSettings s
  else
    let (ok1, s1) := updateBufferVideoEncoder eng s
    if ¬ ok1 then (false, cleanupCircularBuffer s1)
    else
      let (ok2, s2) := updateBufferAudioComponents eng s1
      if ¬ ok2 then (false, cleanupCircularBuffer s2)
      else
        let (ok3, s3) := createBufferOutput eng s2
        if ¬ ok3 then (false, cleanupCircularBuffer s3)
        else
          let (ok4, s4) := startBufferOutput eng s3
          if ¬ ok4 then (false, cleanupCircularBuffer s4)
          else
            (true, { s4 with bufferState :=
                      { isActive := true
                        lastEncodingSettings := s4.encodingSettings
                        lastAudioSettings := s4.audioSettings
                        lastMicrophoneSettings := s4.microphoneSettings
                        lastBufferDuration := s4.bufferDurationSeconds } })

/-- StartClippingMode — refused when OBS is uninitialized or clipping
mode is already active; on setup failure the partial state is cleaned
up and failure returned; on success the active flag is set and
clippingModeChanged(true) emitted. -/
def startClippingMode (eng : Eng) (s : GCState) : Bool × GCState :=
  if ¬ (s.obsInitialized = true) ∨ s.clippingModeActive = true then (false, s)
  else
    let (ok, s1) := setupCircularBuffer eng s
    if ¬ ok then (false, cleanupCircularBuffer s1)
    else (true, { s1 with clippingModeActive := true
                          emitted := .clippingModeChanged true :: s1.emitted })

/-- signal_handler_connect of the replay_buffer_saved_callback on the
buffer output's "saved" signal, when the output exists. -/
def connectSavedHandler (s : GCState) : GCState :=
  match s.bufferOutput with
  | some out =>
      { s with bufferOutput := some { out with savedConnections := out.savedConnections + 1 } }
  | Option.none => s

/-- SaveInstantReplay — rejected while the 2000ms cooldown since the
last accepted save (or construction) has not elapsed, or when clipping
is inactive, a save is in flight, or the buffer output is missing or
not running.  On acceptance: cooldown restarted, saving flag set,
recordingStarted emitted, "saved" handler connected, the engine's
"save" procedure invoked (oracle procOk), and on procedure success the
30s save timeout started.  The source's defensive null checks on
obs_output_get_signal_handler / obs_output_get_proc_handler are not
modelled: a valid output always provides both, so those branches are
unreachable. -/
def saveInstantReplay (procOk : Bool) (filename : String) (s : GCState) : Bool × GCState :=
  if s.now - s.saveCooldownStart < SAVE_COOLDOWN_MS then (false, s)
  else if ¬ (s.clippingModeActive = true) ∨ s.isRecording = true ∨
          s.bufferOutput = Option.none ∨ ¬ (s.outputActive = true) then (false, s)
  else
    let s1 := { s with saveCooldownStart := s.now }
    let s2 := { s1 with isRecording := true,
                        emitted := .recordingStarted :: s1.emitted,
                        currentRecordingFile := filename }
    let s3 := disconnectReplayBufferSignals s2
    let s4 := connectSavedHandler s3
    if ¬ procOk then
      (false, disconnectReplayBufferSignals { s4 with isRecording := false })
    else
      (true, { s4 with saveClipTimeoutTimerRunning := true })

/-- onSaveClipTimeout slot — when a save is still in flight, clears the
saving flag, disconnects the "saved" handler and reports the save as
failed. -/
def onSaveClipTimeout (s : GCState) : GCState :=
  if s.isRecording then
    let s1 := disconnectReplayBufferSignals { s with isRecording := false }
    { s1 with emitted := .recordingFinished false s1.currentRecordingFile :: s1.emitted }
  else s

/-- handleReplayBufferSaved — stops the save timeout, clears the saving
flag, disconnects the "saved" handler, and reports success with the
resolved path or failure with an empty path.  The path resolution
itself (move-and-rename, scan-for-latest) is filesystem I/O summarised
by the oracle pair (resolvedOk, path).  The 200ms-deferred fast reset
is the separate postSaveReset operation. -/
def handleReplayBufferSaved (resolvedOk : Bool) (path : String) (s : GCState) : GCState :=
  let s1 := { s with saveClipTimeoutTimerRunning := false, isRecording := false }
  let s2 := disconnectReplayBufferSignals s1
  if resolvedOk then { s2 with emitted := .recordingFinished true path :: s2.emitted }
  else { s2 with emitted := .recordingFinished false "" :: s2.emitted }

/-- FastBufferReset — refused synchronously when the output is missing
or inactive or when a stop/reset continuation is already pending;
otherwise registers the restart continuation, connects the "stop"
handler, starts the 3s stop timer and requests an async stop. -/
def fastBufferReset (s : GCState) : Bool × GCState :=
  match s.bufferOutput with
  | Option.none => (false, s)
  | some out =>
      if ¬ (out.active = true) ∨ ¬ (s.pendingBufferCallback = .none) then (false, s)
      else
        (true, { s with pendingBufferCallback := .fastReset,
                        bufferOutput := some { out with stopConnections := out.stopConnections + 1 },
                        bufferStopTimerRunning := true })

/-- Runs m_pendingBufferCallback if set: the cleanup continuation
releases the output; the fast-reset continuation restarts the same
output in place (oracle restartOk) or falls back to a full stop (the
deferred StartClippingMode being a later operation). -/
def runPendingCallback (restartOk : Bool) (s : GCState) : GCState :=
  match s.pendingBufferCallback with
  | .none => s
  | .cleanup =>
      let s1 := completeBufferCleanup s
      { s1 with pendingBufferCallback := .none }
  | .fastReset =>
      let s1 := { s with pendingBufferCallback := PendingCB.none }
      if s1.bufferVideoEncoder = Option.none ∨ s1.bufferAudioEncoder = Option.none then
        stopClippingMode s1
      else
        match s1.bufferOutput with
        | Option.none => stopClippingMode s1
        | some out =>
            if restartOk then { s1 with bufferOutput := some { out with active := true } }
            else stopClippingMode s1

/-- onBufferStopped slot — stops the 3s timer, disconnects this
object's "stop" handler from the output, and runs the pending
continuation. -/
def onBufferStopped (restartOk : Bool) (s : GCState) : GCState :=
  let s1 := { s with bufferStopTimerRunning := false }
  let s2 :=
    match s1.bufferOutput with
    | some out =>
        { s1 with bufferOutput := some { out with stopConnections := out.stopConnections - 1 } }
    | Option.none => s1
  runPendingCallback restartOk s2

/-- onBufferStopTimeout slot — disconnects the "stop" handler,
force-stops the output if it is still active, and runs the pending
continuation. -/
def onBufferStopTimeout (restartOk : Bool) (s : GCState) : GCState :=
  let s1 :=
    match s.bufferOutput with
    | some out =>
        let out1 := { out with stopConnections := out.stopConnections - 1 }
        let out2 := if out1.active then { out1 with active := false } else out1
        { s with bufferOutput := some out2 }
    | Option.none => s
  runPendingCallback restartOk s1

/-- UpdateEncodingSettings — pure value update; no-op when the new
settings compare equal. -/
def updateEncodingSettings (settings : EncodingSettings) (s : GCState) : GCState :=
  if EncodingSettings.eq s.encodingSettings settings then s
  else { s with encodingSettings := settings }

/-- UpdateAudioSettings — applies a changed volume to the live desktop
source immediately, then stores the new settings. -/
def updateAudioSettings (settings : AudioSettings) (s : GCState) : GCState :=
  let volumeChanged := settings.volume ≠ s.audioSettings.volume
  let s1 :=
    match s.desktopAudioSource with
    | some src =>
        if volumeChanged then
          { s with desktopAudioSource := some { src with volume := settings.volume } }
        else s
    | Option.none => s
  { s1 with audioSettings := settings }

/-- UpdateMicrophoneSettings — applies changed volume and
noise-suppression enablement to the live microphone source, then
stores the new settings. -/
def updateMicrophoneSettings (settings : MicrophoneSettings) (s : GCState) : GCState :=
  let volumeChanged := settings.volume ≠ s.microphoneSettings.volume
  let nsChanged := settings.noiseSuppression ≠ s.microphoneSettings.noiseSuppression
  let s1 :=
    match s.microphoneSource with
    | some mic =>
        let mic1 := if volumeChanged then { mic with volume := settings.volume } else mic
        let mic2 :=
          if nsChanged then
            match mic1.noiseFilter with
            | some _ => { mic1 with noiseFilter := some settings.noiseSuppression }
            | Option.none => mic1
          else mic1
        { s with microphoneSource := some mic2 }
    | Option.none => s
  { s1 with microphoneSettings := settings }

/-- InitializeOBS — on engine success, marks OBS initialized and
creates the initial desktop audio source (encoder detection, scene and
graphics setup are engine-side). -/
def initOBS (ok : Bool) (s : GCState) : GCState :=
  if ok then createAudioSource { s with obsInitialized := true }
  else s

/-- Shutdown — stops clipping mode, then explicitly releases the
persistent encoders and audio sources and shuts the engine down. -/
def shutdownGC (s : GCState) : GCState :=
  let s1 := stopClippingMode s
  { s1 with bufferVideoEncoder := Option.none,
            bufferAudioEncoder := Option.none,
            desktopAudioSource := Option.none,
            microphoneSource := Option.none,
            obsInitialized := false }

/-! ## Event-loop operations and reachability -/

/-- One event-loop turn of the GameCapture object: a public call, a
queued engine notification, a timer expiry, or the passage of time.
Engine outcomes are oracle parameters so that reachability covers
failure paths. -/
inductive Op
  | initOBS (ok : Bool)
  | startClipping (eng : Eng)
  | stopClipping
  | bufferStopSignal (restartOk : Bool)
  | bufferStopTimeout (restartOk : Bool)
  | saveReplay (procOk : Bool) (filename : String)
  | savedSignal (resolvedOk : Bool) (path : String)
  | saveTimeout
  | postSaveReset
  | fastResetVerify
  | setEncoding (e : EncodingSettings)
  | setAudio (a : AudioSettings)
  | setMicrophone (m : MicrophoneSettings)
  | setBufferDuration (n : Int)
  | tick (dt : Nat)
  | shutdown

/-- Applies one operation.  The "stop" signal is delivered to the slot
only while a "stop" connection is registered; the engine marks the
output inactive when it stops.  The "saved" callback runs only while
the "saved" connection is registered.  Timer slots fire only while
their single-shot timer is running. -/
def run (s : GCState) : Op → GCState
  | .initOBS ok => initOBS ok s
  | .startClipping eng => (startClippingMode eng s).2
  | .stopClipping => stopClippingMode s
  | .bufferStopSignal restartOk =>
      match s.bufferOutput with
      | Option.none => s
      | some out =>
          let s1 := { s with bufferOutput := some { out with active := false } }
          if 0 < out.stopConnections then onBufferStopped restartOk s1 else s1
  | .bufferStopTimeout restartOk =>
      if s.bufferStopTimerRunning then
        onBufferStopTimeout restartOk { s with bufferStopTimerRunning := false }
      else s
  | .saveReplay procOk filename => (saveInstantReplay procOk filename s).2
  | .savedSignal resolvedOk path =>
      match s.bufferOutput with
      | some out =>
          if 0 < out.savedConnections then handleReplayBufferSaved resolvedOk path s else s
      | Option.none => s
  | .saveTimeout =>
      if s.saveClipTimeoutTimerRunning then
        onSaveClipTimeout { s with saveClipTimeoutTimerRunning := false }
      else s
  | .postSaveReset =>
      if s.clippingModeActive then
        let (ok, s1) := fastBufferReset s
        if ok then s1 else stopClippingMode s1
      else s
  | .fastResetVerify =>
      if s.clippingModeActive = true ∧ s.outputActive = false then stopClippingMode s
      else s
  | .setEncoding e => updateEncodingSettings e s
  | .setAudio a => updateAudioSettings a s
  | .setMicrophone m => updateMicrophoneSettings m s
  | .setBufferDuration n => { s with bufferDurationSeconds := n }
  | .tick dt => { s with now := s.now + dt }
  | .shutdown => shutdownGC s

/-- Runs a list of operations from a state, left to right. -/
def runOps (s : GCState) (ops : List Op) : GCState :=
  ops.foldl run s

/-- States of the GameCapture object reachable from construction. -/
inductive Reachable : GCState → Prop
  | init : Reachable initialState
  | step {s : GCState} (op : Op) : Reachable s → Reachable (run s op)

/-- The persistent components Stop must not touch: both encoders and
both audio sources. -/
def keepsComponents (s t : GCState) : Prop :=
  t.bufferVideoEncoder = s.bufferVideoEncoder ∧
  t.bufferAudioEncoder = s.bufferAudioEncoder ∧
  t.desktopAudioSource = s.desktopAudioSource ∧
  t.microphoneSource = s.microphoneSource

/-- The buffer-lifecycle invariant of the BufferState tracking struct:
no buffer output exists while isActive is false, and while isActive is
true exactly one buffer output exists, attached to exactly one video
encoder and one audio encoder. -/
def Inv (s : GCState) : Prop :=
  (s.bufferState.isActive = false → s.bufferOutput = Option.none) ∧
  (s.bufferState.isActive = true →
    ∃ out, s.bufferOutput = some out ∧
      out.videoEncs.length = 1 ∧ out.audioEncs.length = 1)

/-! ## Helper lemmas -/

/-- disconnectReplayBufferSignals only decrements the output's "saved"
connection count. -/
theorem disconnect_eq (s : GCState) :
    disconnectReplayBufferSignals s =
      { s with bufferOutput :=
          s.bufferOutput.map (fun out => { out with savedConnections := out.savedConnections - 1 }) } := by
  rcases s with ⟨f1, f2, f3, f4, f5, f6, f7, f8, f9, f10, f11, f12, f13, out,
    f15, f16, f17, f18, f19, f20, f21, f22, f23, f24, f25, f26, f27, f28, f29, f30⟩
  cases out <;> rfl

theorem keepsComponents_refl (s : GCState) : keepsComponents s s :=
  ⟨rfl, rfl, rfl, rfl⟩

theorem keepsComponents_trans {s t u : GCState}
    (h1 : keepsComponents s t) (h2 : keepsComponents t u) : keepsComponents s u := by
  obtain ⟨a1, b1, c1, d1⟩ := h1
  obtain ⟨a2, b2, c2, d2⟩ := h2
  exact ⟨a2.trans a1, b2.trans b1, c2.trans c1, d2.trans d1⟩

theorem keeps_disconnect (s : GCState) :
    keepsComponents s (disconnectReplayBufferSignals s) := by
  rw [disconnect_eq]; exact ⟨rfl, rfl, rfl, rfl⟩

theorem keeps_complete (s : GCState) :
    keepsComponents s (completeBufferCleanup s) :=
  ⟨rfl, rfl, rfl, rfl⟩

theorem keeps_cleanup (s : GCState) :
    keepsComponents s (cleanupCircularBuffer s) := by
  unfold cleanupCircularBuffer
  split
  · exact keepsComponents_refl s
  · refine keepsComponents_trans (keeps_disconnect s) ?_
    cases hout : (disconnectReplayBufferSignals s).bufferOutput with
    | none => simp only [hout]; exact keeps_complete _
    | some out =>
        simp only [hout]
        split
        · exact ⟨rfl, rfl, rfl, rfl⟩
        · exact keeps_complete _

theorem keeps_stopClipping (s : GCState) :
    keepsComponents s (stopClippingMode s) := by
  unfold stopClippingMode
  split
  · exact keepsComponents_refl s
  · have h1 : keepsComponents s
        (if s.isRecording then
          disconnectReplayBufferSignals { s with isRecording := false }
        else s) := by
      split
      · exact keeps_disconnect { s with isRecording := false }
      · exact keepsComponents_refl s
    have h2 := keeps_cleanup
        (if s.isRecording then
          disconnectReplayBufferSignals { s with isRecording := false }
        else s)
    exact keepsComponents_trans (keepsComponents_trans h1 h2) ⟨rfl, rfl, rfl, rfl⟩

theorem keeps_runPending (r : Bool) (s : GCState) :
    keepsComponents s (runPendingCallback r s) := by
  unfold runPendingCallback
  cases s.pendingBufferCallback with
  | none => exact keepsComponents_refl s
  | cleanup => exact ⟨rfl, rfl, rfl, rfl⟩
  | fastReset =>
      simp only
      split
      · exact keeps_stopClipping _
      · cases hout : ({ s with pendingBufferCallback := PendingCB.none } : GCState).bufferOutput with
        | none => simp only [hout]; exact keeps_stopClipping _
        | some out =>
            simp only [hout]
            split
            · exact ⟨rfl, rfl, rfl, rfl⟩
            · exact keeps_stopClipping _

theorem keeps_onBufferStopped (r : Bool) (s : GCState) :
    keepsComponents s (onBufferStopped r s) := by
  unfold onBufferStopped
  refine keepsComponents_trans ?_ (keeps_runPending r _)
  cases hout : ({ s with bufferStopTimerRunning := false } : GCState).bufferOutput with
  | none => simp only [hout]; exact keepsComponents_refl _
  | some out => simp only [hout]; exact ⟨rfl, rfl, rfl, rfl⟩

theorem keeps_onBufferStopTimeout (r : Bool) (s : GCState) :
    keepsComponents s (onBufferStopTimeout r s) := by
  unfold onBufferStopTimeout
  refine keepsComponents_trans ?_ (keeps_runPending r _)
  cases hout : s.bufferOutput with
  | none => simp only [hout]; exact keepsComponents_refl _
  | some out => simp only [hout]; exact ⟨rfl, rfl, rfl, rfl⟩

/-- When the buffer output is absent or not running, cleanup completes
synchronously: the output handle is released and isActive cleared. -/
theorem cleanup_sync (s : GCState)
    (h : ∀ out, s.bufferOutput = some out → out.active = false) :
    (cleanupCircularBuffer s).bufferOutput = Option.none ∧
    (cleanupCircularBuffer s).bufferState.isActive = false := by
  unfold cleanupCircularBuffer
  split
  · next hc => exact ⟨hc.1, hc.2⟩
  · rw [disconnect_eq]
    cases hout : s.bufferOutput with
    | none => simp [hout, completeBufferCleanup]
    | some out =>
        have hact : out.active = false := h out hout
        simp [hout, hact, completeBufferCleanup]

/-- A save issued while the cooldown is running is rejected before any
state is touched. -/
theorem save_rejected_cooldown (p : Bool) (g : String) (t : GCState)
    (h : t.now - t.saveCooldownStart < SAVE_COOLDOWN_MS) :
    saveInstantReplay p g t = (false, t) := by
  unfold saveInstantReplay
  rw [if_pos h]

/-- outputActive = false gives the pointwise form used by cleanup. -/
theorem outputActive_false (s : GCState) (h : s.outputActive = false) :
    ∀ out, s.bufferOutput = some out → out.active = false := by
  intro out hout
  unfold GCState.outputActive at h
  rw [hout] at h
  exact h

/-- GetCurrentGameFolder only writes the folder cache. -/
theorem getFolder_proj (s : GCState) :
    ((getCurrentGameFolder s).2).desktopSourceCreations = s.desktopSourceCreations ∧
    ((getCurrentGameFolder s).2).audioEncoderCreations = s.audioEncoderCreations ∧
    ((getCurrentGameFolder s).2).videoEncoderCreations = s.videoEncoderCreations ∧
    ((getCurrentGameFolder s).2).bufferOutput = s.bufferOutput ∧
    ((getCurrentGameFolder s).2).bufferState = s.bufferState ∧
    ((getCurrentGameFolder s).2).bufferVideoEncoder = s.bufferVideoEncoder ∧
    ((getCurrentGameFolder s).2).bufferAudioEncoder = s.bufferAudioEncoder := by
  unfold getCurrentGameFolder
  split <;> exact ⟨rfl, rfl, rfl, rfl, rfl, rfl, rfl⟩

/-- CleanupCircularBuffer never touches a creation counter. -/
theorem cleanup_counters (s : GCState) :
    (cleanupCircularBuffer s).videoEncoderCreations = s.videoEncoderCreations ∧
    (cleanupCircularBuffer s).audioEncoderCreations = s.audioEncoderCreations ∧
    (cleanupCircularBuffer s).desktopSourceCreations = s.desktopSourceCreations ∧
    (cleanupCircularBuffer s).micSourceCreations = s.micSourceCreations ∧
    (cleanupCircularBuffer s).bufferOutputCreations = s.bufferOutputCreations := by
  unfold cleanupCircularBuffer
  split
  · exact ⟨rfl, rfl, rfl, rfl, rfl⟩
  · rw [disconnect_eq]
    cases hout : s.bufferOutput with
    | none => exact ⟨rfl, rfl, rfl, rfl, rfl⟩
    | some out =>
        simp only [hout, Option.map]
        split
        · exact ⟨rfl, rfl, rfl, rfl, rfl⟩
        · exact ⟨rfl, rfl, rfl, rfl, rfl⟩

/-- CreateBufferOutput preserves the encoder and source counters. -/
theorem createOutput_counters (eng : Eng) (s : GCState) :
    ((createBufferOutput eng s).2).desktopSourceCreations = s.desktopSourceCreations ∧
    ((createBufferOutput eng s).2).audioEncoderCreations = s.audioEncoderCreations ∧
    ((createBufferOutput eng s).2).videoEncoderCreations = s.videoEncoderCreations := by
  unfold createBufferOutput
  cases hout : s.bufferOutput with
  | some out => exact ⟨rfl, rfl, rfl⟩
  | none =>
      cases hve : s.bufferVideoEncoder with
      | none => exact ⟨rfl, rfl, rfl⟩
      | some ve =>
          cases hae : s.bufferAudioEncoder with
          | none => exact ⟨rfl, rfl, rfl⟩
          | some ae =>
              simp only
              have hg := getFolder_proj s
              split
              · exact ⟨hg.1, hg.2.1, hg.2.2.1⟩
              · exact ⟨hg.1, hg.2.1, hg.2.2.1⟩

/-- StartBufferOutput preserves every creation counter. -/
theorem startOutput_counters (eng : Eng) (s : GCState) :
    ((startBufferOutput eng s).2).desktopSourceCreations = s.desktopSourceCreations ∧
    ((startBufferOutput eng s).2).audioEncoderCreations = s.audioEncoderCreations ∧
    ((startBufferOutput eng s).2).videoEncoderCreations = s.videoEncoderCreations := by
  unfold startBufferOutput
  cases hout : s.bufferOutput with
  | none => exact ⟨rfl, rfl, rfl⟩
  | some out =>
      simp only
      split
      · exact ⟨rfl, rfl, rfl⟩
      · split
        · exact ⟨rfl, rfl, rfl⟩
        · split <;> exact ⟨rfl, rfl, rfl⟩

/-- UpdateBufferVideoEncoder is a no-op when an encoder exists and the
encoding settings are unchanged. -/
theorem updVideo_noop (eng : Eng) (s : GCState)
    (h1 : ¬ (s.bufferVideoEncoder = Option.none))
    (h2 : EncodingSettings.eq s.bufferState.lastEncodingSettings s.encodingSettings) :
    updateBufferVideoEncoder eng s = (true, s) := by
  simp only [updateBufferVideoEncoder, BufferState.hasEncodingChanges]
  rw [if_pos]
  push_neg
  exact ⟨h1, h2⟩

/-- desktopAudioStep touches only the desktop source and its counter. -/
theorem desktopAudioStep_proj (changed : Prop) [Decidable changed] (s : GCState) :
    (desktopAudioStep changed s).audioEncoderCreations = s.audioEncoderCreations ∧
    (desktopAudioStep changed s).bufferVideoEncoder = s.bufferVideoEncoder ∧
    (desktopAudioStep changed s).bufferAudioEncoder = s.bufferAudioEncoder ∧
    (desktopAudioStep changed s).bufferOutput = s.bufferOutput ∧
    (desktopAudioStep changed s).bufferState = s.bufferState ∧
    (desktopAudioStep changed s).obsInitialized = s.obsInitialized ∧
    (desktopAudioStep changed s).clippingModeActive = s.clippingModeActive ∧
    (desktopAudioStep changed s).microphoneSource = s.microphoneSource ∧
    (desktopAudioStep changed s).microphoneSettings = s.microphoneSettings ∧
    (desktopAudioStep changed s).audioSettings = s.audioSettings := by
  unfold desktopAudioStep
  split
  · exact ⟨rfl, rfl, rfl, rfl, rfl, rfl, rfl, rfl, rfl, rfl⟩
  · dsimp only
    split <;> exact ⟨rfl, rfl, rfl, rfl, rfl, rfl, rfl, rfl, rfl, rfl⟩

/-- Without a device change, desktopAudioStep does not recreate. -/
theorem desktopAudioStep_noRec (changed : Prop) [Decidable changed] (s : GCState)
    (h : ¬ changed) :
    (desktopAudioStep changed s).desktopSourceCreations = s.desktopSourceCreations := by
  unfold desktopAudioStep
  rw [if_neg h]
  dsimp only
  split <;> rfl

/-- micSourceStep touches only the microphone source and its counter. -/
theorem micSourceStep_proj (changed : Prop) [Decidable changed] (s : GCState) :
    (micSourceStep changed s).desktopSourceCreations = s.desktopSourceCreations ∧
    (micSourceStep changed s).audioEncoderCreations = s.audioEncoderCreations ∧
    (micSourceStep changed s).bufferVideoEncoder = s.bufferVideoEncoder ∧
    (micSourceStep changed s).bufferAudioEncoder = s.bufferAudioEncoder ∧
    (micSourceStep changed s).bufferOutput = s.bufferOutput ∧
    (micSourceStep changed s).bufferState = s.bufferState ∧
    (micSourceStep changed s).obsInitialized = s.obsInitialized ∧
    (micSourceStep changed s).clippingModeActive = s.clippingModeActive ∧
    (micSourceStep changed s).desktopAudioSource = s.desktopAudioSource ∧
    (micSourceStep changed s).audioSettings = s.audioSettings := by
  unfold micSourceStep
  split
  · split
    · exact ⟨rfl, rfl, rfl, rfl, rfl, rfl, rfl, rfl, rfl, rfl⟩
    · exact ⟨rfl, rfl, rfl, rfl, rfl, rfl, rfl, rfl, rfl, rfl⟩
  · dsimp only
    split <;> exact ⟨rfl, rfl, rfl, rfl, rfl, rfl, rfl, rfl, rfl, rfl⟩

/-- Without a bitrate change, audioEncoderStep is a no-op. -/
theorem audioEncoderStep_noop (eng : Eng) (changed : Prop) [Decidable changed]
    (s : GCState) (h : ¬ changed) :
    audioEncoderStep eng changed s = (true, s) := by
  unfold audioEncoderStep
  rw [if_neg h]

/-- audioEncoderStep touches only the audio encoder and its counter. -/
theorem audioEncoderStep_proj (eng : Eng) (changed : Prop) [Decidable changed] (s : GCState) :
    ((audioEncoderStep eng changed s).2).desktopSourceCreations = s.desktopSourceCreations ∧
    ((audioEncoderStep eng changed s).2).videoEncoderCreations = s.videoEncoderCreations ∧
    ((audioEncoderStep eng changed s).2).micSourceCreations = s.micSourceCreations ∧
    ((audioEncoderStep eng changed s).2).bufferVideoEncoder = s.bufferVideoEncoder ∧
    ((audioEncoderStep eng changed s).2).bufferOutput = s.bufferOutput ∧
    ((audioEncoderStep eng changed s).2).bufferState = s.bufferState ∧
    ((audioEncoderStep eng changed s).2).obsInitialized = s.obsInitialized ∧
    ((audioEncoderStep eng changed s).2).clippingModeActive = s.clippingModeActive ∧
    ((audioEncoderStep eng changed s).2).desktopAudioSource = s.desktopAudioSource ∧
    ((audioEncoderStep eng changed s).2).microphoneSource = s.microphoneSource := by
  unfold audioEncoderStep
  split
  · split <;> exact ⟨rfl, rfl, rfl, rfl, rfl, rfl, rfl, rfl, rfl, rfl⟩
  · exact ⟨rfl, rfl, rfl, rfl, rfl, rfl, rfl, rfl, rfl, rfl⟩

/-- UpdateBufferAudioComponents recreates neither the desktop audio
source nor the audio encoder when both exist and neither the device id
nor the audio bitrate changed since the last start. -/
theorem updAudio_no_recreation (eng : Eng) (s : GCState)
    (hsome : ¬ (s.desktopAudioSource = Option.none))
    (hdev : s.bufferState.lastAudioSettings.deviceId = s.audioSettings.deviceId)
    (haes : ¬ (s.bufferAudioEncoder = Option.none))
    (hbr : s.bufferState.lastAudioSettings.bitrate = s.audioSettings.bitrate) :
    (updateBufferAudioComponents eng s).1 = true ∧
    ((updateBufferAudioComponents eng s).2).desktopSourceCreations = s.desktopSourceCreations ∧
    ((updateBufferAudioComponents eng s).2).audioEncoderCreations = s.audioEncoderCreations ∧
    ((updateBufferAudioComponents eng s).2).bufferVideoEncoder = s.bufferVideoEncoder ∧
    ((updateBufferAudioComponents eng s).2).bufferAudioEncoder = s.bufferAudioEncoder ∧
    ((updateBufferAudioComponents eng s).2).bufferOutput = s.bufferOutput ∧
    ((updateBufferAudioComponents eng s).2).bufferState = s.bufferState ∧
    ((updateBufferAudioComponents eng s).2).obsInitialized = s.obsInitialized ∧
    ((updateBufferAudioComponents eng s).2).clippingModeActive = s.clippingModeActive := by
  have hdc : ¬ (s.desktopAudioSource = Option.none ∨
      s.bufferState.lastAudioSettings.deviceId ≠ s.audioSettings.deviceId) := by
    push_neg
    exact ⟨hsome, hdev⟩
  have hec : ¬ (s.bufferAudioEncoder = Option.none ∨
      s.bufferState.lastAudioSettings.bitrate ≠ s.audioSettings.bitrate) := by
    push_neg
    exact ⟨haes, hbr⟩
  unfold updateBufferAudioComponents
  rw [audioEncoderStep_noop _ _ _ hec]
  have hd := desktopAudioStep_proj (s.desktopAudioSource = Option.none ∨
      s.bufferState.lastAudioSettings.deviceId ≠ s.audioSettings.deviceId) s
  have hdn := desktopAudioStep_noRec (s.desktopAudioSource = Option.none ∨
      s.bufferState.lastAudioSettings.deviceId ≠ s.audioSettings.deviceId) s hdc
  have hm := micSourceStep_proj (s.microphoneSource = Option.none ∨
      s.bufferState.lastMicrophoneSettings.deviceId ≠ s.microphoneSettings.deviceId)
      (desktopAudioStep (s.desktopAudioSource = Option.none ∨
        s.bufferState.lastAudioSettings.deviceId ≠ s.audioSettings.deviceId) s)
  exact ⟨rfl,
    hm.1.trans hdn,
    hm.2.1.trans hd.1,
    hm.2.2.1.trans hd.2.1,
    hm.2.2.2.1.trans hd.2.2.1,
    hm.2.2.2.2.1.trans hd.2.2.2.1,
    hm.2.2.2.2.2.1.trans hd.2.2.2.2.1,
    hm.2.2.2.2.2.2.1.trans hd.2.2.2.2.2.1,
    hm.2.2.2.2.2.2.2.1.trans hd.2.2.2.2.2.2.1⟩

/-- Counters after the SetupCircularBuffer chain when the video step is
a no-op and the audio step recreates nothing: the desktop-source and
audio-encoder counters are unchanged on every path, success or
failure. -/
theorem setup_counters_after (eng : Eng) (s : GCState)
    (h1 : updateBufferVideoEncoder eng s = (true, s))
    (hA : (updateBufferAudioComponents eng s).1 = true)
    (hd : ((updateBufferAudioComponents eng s).2).desktopSourceCreations = s.desktopSourceCreations)
    (ha : ((updateBufferAudioComponents eng s).2).audioEncoderCreations = s.audioEncoderCreations)
    (hvalid : s.obsInitialized = true ∧ eng.stateValid = true)
    (hinact : ¬ (s.bufferState.isActive = true)) :
    ((setupCircularBuffer eng s).2).desktopSourceCreations = s.desktopSourceCreations ∧
    ((setupCircularBuffer eng s).2).audioEncoderCreations = s.audioEncoderCreations := by
  simp only [setupCircularBuffer]
  rw [if_neg (not_not_intro hvalid), if_neg hinact]
  rcases hA2 : updateBufferAudioComponents eng s with ⟨ok2, s2⟩
  rw [hA2] at hA hd ha
  simp only at hA hd ha
  subst hA
  rcases hC : createBufferOutput eng s2 with ⟨ok3, s3⟩
  have hcc := createOutput_counters eng s2
  rw [hC] at hcc
  simp only at hcc
  rcases hS : startBufferOutput eng s3 with ⟨ok4, s4⟩
  have hsc := startOutput_counters eng s3
  rw [hS] at hsc
  simp only at hsc
  have hclean3 := cleanup_counters s3
  have hclean4 := cleanup_counters s4
  cases ok3 with
  | false =>
      simp [h1, hA2, hC]
      exact ⟨hclean3.2.2.1.trans (hcc.1.trans hd), hclean3.2.1.trans (hcc.2.1.trans ha)⟩
  | true =>
      cases ok4 with
      | false =>
          simp [h1, hA2, hC, hS]
          exact ⟨hclean4.2.2.1.trans (hsc.1.trans (hcc.1.trans hd)),
                 hclean4.2.1.trans (hsc.2.1.trans (hcc.2.1.trans ha))⟩
      | true =>
          simp [h1, hA2, hC, hS]
          exact ⟨hsc.1.trans (hcc.1.trans hd), hsc.2.1.trans (hcc.2.1.trans ha)⟩

/-- Lifts counter preservation through the StartClippingMode wrapper. -/
theorem startClipping_counters (eng : Eng) (s : GCState)
    (hinit : s.obsInitialized = true) (hclip : ¬ (s.clippingModeActive = true))
    (hd : ((setupCircularBuffer eng s).2).desktopSourceCreations = s.desktopSourceCreations)
    (ha : ((setupCircularBuffer eng s).2).audioEncoderCreations = s.audioEncoderCreations) :
    ((startClippingMode eng s).2).desktopSourceCreations = s.desktopSourceCreations ∧
    ((startClippingMode eng s).2).audioEncoderCreations = s.audioEncoderCreations := by
  unfold startClippingMode
  rw [if_neg (by push_neg; exact ⟨hinit, hclip⟩)]
  rcases hS : setupCircularBuffer eng s with ⟨ok, s2⟩
  rw [hS] at hd ha
  simp only at hd ha
  have hc := cleanup_counters s2
  cases ok with
  | false =>
      simp [hS]
      exact ⟨hc.2.2.1.trans hd, hc.2.1.trans ha⟩
  | true =>
      simp [hS]
      exact ⟨hd, ha⟩

/-- C9: for every output root and raw game name the derived folder is
root/General when the name is empty, "Unknown", or empty after
sanitization, and otherwise root/<name> with the characters <>:"/\|?*
replaced by _ and the result trimmed (the code agrees with the spec's
naming contract on all inputs); in particular
GetPathForGameName(root, "My/Game:2") = root/My_Game_2 and the empty
and "Unknown" names map to root/General. -/
theorem c9_getPathForGameName_correct :
    (∀ root name, getPathForGameName root name = specPathForGameName root name) ∧
    (∀ root, getPathForGameName root "My/Game:2" = root ++ "/My_Game_2") ∧
    (∀ root, getPathForGameName root "" = root ++ "/General") ∧
    (∀ root, getPathForGameName root "Unknown" = root ++ "/General") := by
  refine ⟨?_, ?_, ?_, ?_⟩
  · intro root name
    simp only [getPathForGameName, specPathForGameName]
    split_ifs with h1 h2 h3 h4 h5 <;> first | rfl | tauto
  · intro root
    simp only [getPathForGameName]
    rw [if_neg (by decide)]
    show root ++ "/" ++ qtrimmed (replaceInvalidChars "My/Game:2") = root ++ "/My_Game_2"
    rw [String.append_assoc]; rfl
  · intro root
    simp only [getPathForGameName]
    rw [if_pos (by decide)]
  · intro root
    simp only [getPathForGameName]
    rw [if_pos (by decide)]

/-- C5: a Fast Reset requested while a stop/reset completion handler is
already pending is refused synchronously and leaves the state — in
particular the output's registered "stop" handler count — completely
unchanged, so no second stop-notification handler is ever registered
on the same output. -/
theorem c5_fastReset_refused_while_pending (s : GCState)
    (h : ¬ (s.pendingBufferCallback = PendingCB.none)) :
    fastBufferReset s = (false, s) := by
  unfold fastBufferReset
  cases hout : s.bufferOutput with
  | none => rfl
  | some out => exact if_pos (Or.inr h)

/-- C5 witness: after Start then Stop (asynchronous stop in flight),
the cleanup continuation is pending and Fast Reset is refused with no
state change. -/
theorem c5_witness :
    ¬ ((runOps initialState [.initOBS true, .startClipping {}, .stopClipping]).pendingBufferCallback
        = PendingCB.none) ∧
    fastBufferReset (runOps initialState [.initOBS true, .startClipping {}, .stopClipping]) =
      (false, runOps initialState [.initOBS true, .startClipping {}, .stopClipping]) :=
  ⟨by decide, c5_fastReset_refused_while_pending _ (by decide)⟩

/-- C10: the save cooldown clock starts at construction
(initialState.saveCooldownStart = 0), so every SaveInstantReplay call
issued less than 2000 ms after construction is rejected synchronously
with no state change, even though no save was ever attempted. -/
theorem c10_cooldown_runs_from_construction (s : GCState) (procOk : Bool) (f : String)
    (h0 : s.saveCooldownStart = 0) (hn : s.now < 2000) :
    saveInstantReplay procOk f s = (false, s) ∧ initialState.saveCooldownStart = 0 := by
  refine ⟨?_, rfl⟩
  unfold saveInstantReplay
  rw [if_pos (by rw [h0]; simpa [SAVE_COOLDOWN_MS] using hn)]

/-- C10 witness: 1500 ms after construction, with clipping active and
the buffer running, a first-ever save is still rejected. -/
theorem c10_witness :
    (runOps initialState [.initOBS true, .startClipping {}, .tick 1500]).saveCooldownStart = 0 ∧
    (runOps initialState [.initOBS true, .startClipping {}, .tick 1500]).now < 2000 ∧
    saveInstantReplay true "clip" (runOps initialState [.initOBS true, .startClipping {}, .tick 1500]) =
      (false, runOps initialState [.initOBS true, .startClipping {}, .tick 1500]) :=
  ⟨by decide, by decide,
    (c10_cooldown_runs_from_construction _ true "clip" (by decide) (by decide)).1⟩

/-- C8: accepting a save starts the save timeout timer (interval
SAVE_CLIP_TIMEOUT_MS = 30000 ms); if the timer expires while the save
is still in flight, the saving flag is cleared and recordingFinished
is emitted with success = false. -/
theorem c8_save_timeout_reports_failure (s : GCState)
    (hrec : s.isRecording = true) (htimer : s.saveClipTimeoutTimerRunning = true) :
    (run s .saveTimeout).isRecording = false ∧
    (run s .saveTimeout).emitted =
      QtSignal.recordingFinished false s.currentRecordingFile :: s.emitted ∧
    (run s .saveTimeout).saveClipTimeoutTimerRunning = false ∧
    SAVE_CLIP_TIMEOUT_MS = 30000 ∧
    (∀ procOk f t, (saveInstantReplay procOk f t).1 = true →
        ((saveInstantReplay procOk f t).2).saveClipTimeoutTimerRunning = true) := by
  refine ⟨?_, ?_, ?_, rfl, ?_⟩
  · simp [run, htimer, onSaveClipTimeout, hrec, disconnect_eq]
  · simp [run, htimer, onSaveClipTimeout, hrec, disconnect_eq]
  · simp [run, htimer, onSaveClipTimeout, hrec, disconnect_eq]
  · intro procOk f t h
    by_cases h1 : t.now - t.saveCooldownStart < SAVE_COOLDOWN_MS
    · simp only [saveInstantReplay, if_pos h1] at h
      exact absurd h (by simp)
    · by_cases h2 : ¬ (t.clippingModeActive = true) ∨ t.isRecording = true ∨
          t.bufferOutput = Option.none ∨ ¬ (t.outputActive = true)
      · simp only [saveInstantReplay, if_neg h1, if_pos h2] at h
        exact absurd h (by simp)
      · cases hp : procOk with
        | false =>
            simp only [saveInstantReplay, if_neg h1, if_neg h2, hp] at h
            simp at h
        | true =>
            simp only [saveInstantReplay, if_neg h1, if_neg h2, hp]
            simp

/-- C8 witness: an accepted save followed by the timer expiry reports
failure and clears the saving flag, on a concrete trace. -/
theorem c8_witness :
    ((runOps initialState [.initOBS true, .startClipping {}, .tick 2000,
        .saveReplay true "clip"]).isRecording = true) ∧
    ((runOps initialState [.initOBS true, .startClipping {}, .tick 2000,
        .saveReplay true "clip"]).saveClipTimeoutTimerRunning = true) ∧
    ((run (runOps initialState [.initOBS true, .startClipping {}, .tick 2000,
        .saveReplay true "clip"]) .saveTimeout).isRecording = false) :=
  ⟨by decide, by decide,
    (c8_save_timeout_reports_failure _ (by decide) (by decide)).1⟩

/-- C6: Stop (full teardown) and its asynchronous completion paths
leave the video encoder, audio encoder, desktop audio source, and
microphone source fields unchanged; only the buffer output handle is
released (synchronously so when the output is not running), persisting
the components for reuse by a future Start. -/
theorem c6_stop_releases_only_output (s : GCState) (r : Bool) :
    keepsComponents s (run s .stopClipping) ∧
    keepsComponents s (run s (.bufferStopSignal r)) ∧
    keepsComponents s (run s (.bufferStopTimeout r)) ∧
    (s.clippingModeActive = true → s.outputActive = false →
        (run s .stopClipping).bufferOutput = Option.none ∧
        (run s .stopClipping).bufferState.isActive = false) := by
  refine ⟨keeps_stopClipping s, ?_, ?_, ?_⟩
  · show keepsComponents s
      (match s.bufferOutput with
       | Option.none => s
       | some out =>
           let s1 := { s with bufferOutput := some { out with active := false } }
           if 0 < out.stopConnections then onBufferStopped r s1 else s1)
    cases hout : s.bufferOutput with
    | none => exact keepsComponents_refl s
    | some out =>
        simp only
        split
        · exact keepsComponents_trans (⟨rfl, rfl, rfl, rfl⟩ :
            keepsComponents s { s with bufferOutput := some { out with active := false } })
            (keeps_onBufferStopped r _)
        · exact ⟨rfl, rfl, rfl, rfl⟩
  · show keepsComponents s
      (if s.bufferStopTimerRunning then
        onBufferStopTimeout r { s with bufferStopTimerRunning := false }
      else s)
    split
    · exact keepsComponents_trans (⟨rfl, rfl, rfl, rfl⟩ :
        keepsComponents s { s with bufferStopTimerRunning := false })
        (keeps_onBufferStopTimeout r _)
    · exact keepsComponents_refl s
  · intro hclip hinact
    show (stopClippingMode s).bufferOutput = Option.none ∧
         (stopClippingMode s).bufferState.isActive = false
    unfold stopClippingMode
    rw [if_neg (by simp [hclip])]
    have hpt : ∀ out,
        (if s.isRecording then
          disconnectReplayBufferSignals { s with isRecording := false }
        else s).bufferOutput = some out → out.active = false := by
      intro out hout
      by_cases hr : s.isRecording
      · rw [if_pos hr, disconnect_eq] at hout
        cases hso : s.bufferOutput with
        | none => simp [hso] at hout
        | some o =>
            have ho := outputActive_false s hinact o hso
            simp only [hso] at hout
            simp at hout
            rw [← hout]
            exact ho
      · rw [if_neg hr] at hout
        exact outputActive_false s hinact out hout
    exact cleanup_sync _ hpt

/-- C6 witness: on a concrete trace where the output has already
stopped, Stop releases the output synchronously and keeps all four
persistent components. -/
theorem c6_witness :
    (run (runOps initialState [.initOBS true, .startClipping {}, .bufferStopSignal true])
        .stopClipping).bufferOutput = Option.none ∧
    keepsComponents (runOps initialState [.initOBS true, .startClipping {}, .bufferStopSignal true])
      (run (runOps initialState [.initOBS true, .startClipping {}, .bufferStopSignal true])
        .stopClipping) :=
  ⟨((c6_stop_releases_only_output _ true).2.2.2 (by decide) (by decide)).1,
   (c6_stop_releases_only_output _ true).1⟩

/-- C4: with the cooldown elapsed and the save preconditions met, a
Save is accepted; a second Save issued dt < 2000 ms later is rejected
synchronously and leaves the state unchanged — no handler registered,
no timer started — so exactly one of the two saves is accepted. -/
theorem c4_save_cooldown (s : GCState) (out : BufferOutput) (f g : String) (p : Bool) (dt : Nat)
    (hcool : SAVE_COOLDOWN_MS ≤ s.now - s.saveCooldownStart)
    (hclip : s.clippingModeActive = true)
    (hrec : s.isRecording = false)
    (hout : s.bufferOutput = some out)
    (hact : out.active = true)
    (hdt : dt < SAVE_COOLDOWN_MS) :
    (saveInstantReplay true f s).1 = true ∧
    (saveInstantReplay p g (run (saveInstantReplay true f s).2 (.tick dt))).1 = false ∧
    (saveInstantReplay p g (run (saveInstantReplay true f s).2 (.tick dt))).2 =
      run (saveInstantReplay true f s).2 (.tick dt) := by
  have h1 : ¬ (s.now - s.saveCooldownStart < SAVE_COOLDOWN_MS) := by omega
  have hoa : s.outputActive = true := by
    unfold GCState.outputActive
    rw [hout]
    exact hact
  have hproj : ((saveInstantReplay true f s).2).saveCooldownStart = s.now ∧
               ((saveInstantReplay true f s).2).now = s.now := by
    refine ⟨?_, ?_⟩ <;>
      simp [saveInstantReplay, connectSavedHandler, h1, hclip, hrec, hoa, disconnect_eq, hout]
  have hc2 : (run (saveInstantReplay true f s).2 (.tick dt)).now -
      (run (saveInstantReplay true f s).2 (.tick dt)).saveCooldownStart < SAVE_COOLDOWN_MS := by
    show ((saveInstantReplay true f s).2.now + dt) -
        (saveInstantReplay true f s).2.saveCooldownStart < SAVE_COOLDOWN_MS
    rw [hproj.1, hproj.2]
    omega
  refine ⟨?_, ?_, ?_⟩
  · simp [saveInstantReplay, connectSavedHandler, h1, hclip, hrec, hoa, disconnect_eq, hout]
  · rw [save_rejected_cooldown p g _ hc2]
  · rw [save_rejected_cooldown p g _ hc2]

/-- C4 witness: on a concrete trace, the first save (cooldown elapsed)
is accepted and a save 1999 ms later is rejected with no state change. -/
theorem c4_witness :
    (saveInstantReplay true "a"
        (runOps initialState [.initOBS true, .startClipping {}, .tick 2000])).1 = true ∧
    (saveInstantReplay true "b"
        (run (saveInstantReplay true "a"
          (runOps initialState [.initOBS true, .startClipping {}, .tick 2000])).2
          (.tick 1999))).1 = false :=
  ⟨(c4_save_cooldown _
      { id := 3, videoEncs := [1], audioEncs := [2], active := true,
        directory := "/General", maxTimeSec := 60, stopConnections := 0, savedConnections := 0 }
      "a" "b" true 1999 (by decide) (by decide) (by decide) (by decide)
      (by decide) (by decide)).1,
   (c4_save_cooldown _
      { id := 3, videoEncs := [1], audioEncs := [2], active := true,
        directory := "/General", maxTimeSec := 60, stopConnections := 0, savedConnections := 0 }
      "a" "b" true 1999 (by decide) (by decide) (by decide) (by decide)
      (by decide) (by decide)).2.1⟩

/-- C2: Start is refused with no state change when clipping mode is
already active; when the buffer is already active the setup path
routes to the apply-settings-update path (UpdateBufferSettings)
instead of recreating anything; and two consecutive Starts with
unchanged profiles leave every recreation counter at 1. -/
theorem c2_start_idempotent :
    (∀ (eng : Eng) (s : GCState), s.clippingModeActive = true →
        startClippingMode eng s = (false, s)) ∧
    (∀ (eng : Eng) (s : GCState), s.obsInitialized = true → eng.stateValid = true →
        s.bufferState.isActive = true →
        setupCircularBuffer eng s = updateBufferSettings s) ∧
    ((runOps initialState
        [.initOBS true, .startClipping {}, .startClipping {}]).videoEncoderCreations = 1 ∧
     (runOps initialState
        [.initOBS true, .startClipping {}, .startClipping {}]).audioEncoderCreations = 1 ∧
     (runOps initialState
        [.initOBS true, .startClipping {}, .startClipping {}]).desktopSourceCreations = 1 ∧
     (runOps initialState
        [.initOBS true, .startClipping {}, .startClipping {}]).bufferOutputCreations = 1) := by
  refine ⟨?_, ?_, by decide, by decide, by decide, by decide⟩
  · intro eng s h
    unfold startClippingMode
    rw [if_pos (Or.inr h)]
  · intro eng s h1 h2 h3
    unfold setupCircularBuffer
    rw [if_neg (not_not_intro ⟨h1, h2⟩), if_pos h3]

/-- C2 witness: the refusal and the apply-settings routing at the
concrete state reached after a successful Start. -/
theorem c2_witness :
    startClippingMode {} (runOps initialState [.initOBS true, .startClipping {}]) =
      (false, runOps initialState [.initOBS true, .startClipping {}]) ∧
    setupCircularBuffer {} (runOps initialState [.initOBS true, .startClipping {}]) =
      updateBufferSettings (runOps initialState [.initOBS true, .startClipping {}]) :=
  ⟨c2_start_idempotent.1 {} _ (by decide),
   c2_start_idempotent.2.1 {} _ (by decide) (by decide) (by decide)⟩

/-- C1 counterexample: with the x264 encoder selected, changing only
the QSV-specific qsvPreset field — a vendor field irrelevant to the
active encoder kind — makes the next Start recreate the video encoder
(the creation counter goes from 1 to 2), contradicting the claim that
such a change must not recreate it. -/
theorem c1_counterexample :
    (({} : EncodingSettings).encoder = EncoderType.X264) ∧
    ({ qsvPreset := "quality" } : EncodingSettings) =
      { ({} : EncodingSettings) with qsvPreset := "quality" } ∧
    (runOps initialState
      [.initOBS true, .startClipping {}]).videoEncoderCreations = 1 ∧
    (runOps initialState
      [.initOBS true, .startClipping {}, .setEncoding { qsvPreset := "quality" },
       .stopClipping, .bufferStopSignal true,
       .startClipping {}]).videoEncoderCreations = 2 := by
  refine ⟨rfl, rfl, by decide, by decide⟩

/-- C1 amended: a Start after any EncodingSettings change recreates the
video encoder, including changes only to a vendor-specific field
irrelevant to the active encoder kind, because the settings equality
compares every field; in particular pairs differing in bitrate or in
encoder kind always compare unequal and therefore always recreate. -/
theorem c1_settings_diff_recreation :
    (∀ (eng : Eng) (s : GCState), eng.videoEncoderOk = true →
        ¬ EncodingSettings.eq s.bufferState.lastEncodingSettings s.encodingSettings →
        ((updateBufferVideoEncoder eng s).2).videoEncoderCreations
          = s.videoEncoderCreations + 1) ∧
    (∀ a b : EncodingSettings, ¬ (a.bitrate = b.bitrate) ∨ ¬ (a.encoder = b.encoder) →
        ¬ EncodingSettings.eq a b) := by
  constructor
  · intro eng s hok h
    simp only [updateBufferVideoEncoder, BufferState.hasEncodingChanges]
    rw [if_neg (not_not_intro (Or.inr h))]
    simp [hok]
  · intro a b h heq
    obtain ⟨⟨he, hb, -⟩, -⟩ := heq
    cases h with
    | inl hh => exact hh hb
    | inr hh => exact hh he

/-- C1 amended witness: a bitrate-only change and a qsvPreset-only
change each trigger recreation at a concrete state. -/
theorem c1_settings_diff_witness :
    ((updateBufferVideoEncoder {}
        (runOps initialState
          [.initOBS true, .startClipping {}, .setEncoding { qsvPreset := "quality" },
           .stopClipping, .bufferStopSignal true])).2).videoEncoderCreations = 1 + 1 ∧
    ¬ EncodingSettings.eq {} { ({} : EncodingSettings) with bitrate := 9000 } :=
  ⟨c1_settings_diff_recreation.1 {} _ (by decide) (by decide),
   c1_settings_diff_recreation.2 {} _ (Or.inl (by decide))⟩

/-- C7: an AudioSettings update changing only the volume pushes the new
volume into the existing desktop audio source immediately; volume is
excluded from AudioSettings equality; and a subsequent Start recreates
neither the desktop audio source nor the audio encoder. -/
theorem c7_volume_live_update (s : GCState) (src : AudioSource) (ae : AudioEncoder)
    (ve : VideoEncoder) (v : Int)
    (hsrc : s.desktopAudioSource = some src)
    (hae : s.bufferAudioEncoder = some ae)
    (hve : s.bufferVideoEncoder = some ve)
    (hlastA : s.bufferState.lastAudioSettings = s.audioSettings)
    (hlastE : EncodingSettings.eq s.bufferState.lastEncodingSettings s.encodingSettings)
    (hinit : s.obsInitialized = true)
    (hclip : s.clippingModeActive = false)
    (hinact : s.bufferState.isActive = false)
    (hv : ¬ (v = s.audioSettings.volume)) :
    (updateAudioSettings { s.audioSettings with volume := v } s).desktopAudioSource
        = some { src with volume := v } ∧
    AudioSettings.eq s.audioSettings { s.audioSettings with volume := v } ∧
    ((startClippingMode {}
        (updateAudioSettings { s.audioSettings with volume := v } s)).2).desktopSourceCreations
        = s.desktopSourceCreations ∧
    ((startClippingMode {}
        (updateAudioSettings { s.audioSettings with volume := v } s)).2).audioEncoderCreations
        = s.audioEncoderCreations := by
  have hs1 : updateAudioSettings { s.audioSettings with volume := v } s =
      { s with desktopAudioSource := some { src with volume := v },
               audioSettings := { s.audioSettings with volume := v } } := by
    unfold updateAudioSettings
    dsimp only
    rw [hsrc]
    dsimp only
    rw [if_pos hv]
  have hvne : ¬ (s.bufferVideoEncoder = Option.none) := by simp [hve]
  have hsne : ¬ ((some { src with volume := v } : Option AudioSource) = Option.none) := by simp
  have haene : ¬ (s.bufferAudioEncoder = Option.none) := by simp [hae]
  have hdev : s.bufferState.lastAudioSettings.deviceId = s.audioSettings.deviceId :=
    congrArg AudioSettings.deviceId hlastA
  have hbr : s.bufferState.lastAudioSettings.bitrate = s.audioSettings.bitrate :=
    congrArg AudioSettings.bitrate hlastA
  have hinact2 : ¬ (s.bufferState.isActive = true) := by simp [hinact]
  have hclip2 : ¬ (s.clippingModeActive = true) := by simp [hclip]
  rw [hs1]
  set t : GCState :=
    { s with desktopAudioSource := some { src with volume := v },
             audioSettings := { s.audioSettings with volume := v } } with ht
  have h1 : updateBufferVideoEncoder {} t = (true, t) := updVideo_noop {} t hvne hlastE
  have hupdA := updAudio_no_recreation {} t hsne hdev haene hbr
  have hsetup := setup_counters_after {} t h1 hupdA.1 hupdA.2.1 hupdA.2.2.1
    ⟨hinit, rfl⟩ hinact2
  have hfinal := startClipping_counters {} t hinit hclip2 hsetup.1 hsetup.2
  exact ⟨rfl, ⟨rfl, rfl, rfl⟩, hfinal.1, hfinal.2⟩

/-- C7 witness: the theorem applied at the concrete state reached after
Start then Stop, with a volume-only change to 5. -/
theorem c7_witness :
    (updateAudioSettings
        { (runOps initialState [.initOBS true, .startClipping {}, .stopClipping,
            .bufferStopSignal true]).audioSettings with volume := 5 }
        (runOps initialState [.initOBS true, .startClipping {}, .stopClipping,
            .bufferStopSignal true])).desktopAudioSource
      = some { id := 0, deviceId := "default", volume := 5, enabled := true } ∧
    ((startClippingMode {}
        (updateAudioSettings
          { (runOps initialState [.initOBS true, .startClipping {}, .stopClipping,
              .bufferStopSignal true]).audioSettings with volume := 5 }
          (runOps initialState [.initOBS true, .startClipping {}, .stopClipping,
              .bufferStopSignal true]))).2).desktopSourceCreations
      = (runOps initialState [.initOBS true, .startClipping {}, .stopClipping,
          .bufferStopSignal true]).desktopSourceCreations :=
  ⟨(c7_volume_live_update _ ⟨0, "default", 1, true⟩ ⟨2, 192⟩ ⟨1⟩ 5
      (by decide) (by decide) (by decide) (by decide) (by decide) (by decide)
      (by decide) (by decide) (by decide)).1,
   (c7_volume_live_update _ ⟨0, "default", 1, true⟩ ⟨2, 192⟩ ⟨1⟩ 5
      (by decide) (by decide) (by decide) (by decide) (by decide) (by decide)
      (by decide) (by decide) (by decide)).2.2.1⟩

/-! ## Invariant preservation (claim C3) -/

theorem inv_of_none {s : GCState} (hnone : s.bufferOutput = Option.none)
    (hinact : s.bufferState.isActive = false) : Inv s := by
  refine ⟨fun _ => hnone, fun ha => ?_⟩
  rw [hinact] at ha
  exact absurd ha (by simp)

theorem inv_complete (s : GCState) : Inv (completeBufferCleanup s) := by
  unfold completeBufferCleanup
  exact inv_of_none rfl rfl

theorem inv_outTweak {s : GCState} (f : BufferOutput → BufferOutput)
    (hf : ∀ out, (f out).videoEncs = out.videoEncs ∧ (f out).audioEncs = out.audioEncs)
    (h : Inv s) :
    Inv { s with bufferOutput := s.bufferOutput.map f } := by
  obtain ⟨h1, h2⟩ := h
  constructor
  · intro ha
    show Option.map f s.bufferOutput = Option.none
    rw [h1 ha]
    rfl
  · intro ha
    obtain ⟨out, ho, hv, hau⟩ := h2 ha
    refine ⟨f out, ?_, ?_, ?_⟩
    · show Option.map f s.bufferOutput = some (f out)
      rw [ho]
      rfl
    · rw [(hf out).1]
      exact hv
    · rw [(hf out).2]
      exact hau

theorem inv_disconnect {s : GCState} (h : Inv s) :
    Inv (disconnectReplayBufferSignals s) := by
  rw [disconnect_eq]
  exact inv_outTweak _ (fun out => ⟨rfl, rfl⟩) h

theorem inv_cleanup {s : GCState} (h : Inv s) : Inv (cleanupCircularBuffer s) := by
  unfold cleanupCircularBuffer
  split
  · exact h
  · dsimp only
    have hd := inv_disconnect h
    cases hout : (disconnectReplayBufferSignals s).bufferOutput with
    | none => exact inv_complete _
    | some out =>
        dsimp only
        split
        · obtain ⟨h1, h2⟩ := hd
          constructor
          · intro ha
            exact absurd (h1 ha) (by simp [hout])
          · intro ha
            obtain ⟨out2, ho2, hv, hau⟩ := h2 ha
            rw [hout] at ho2
            cases ho2
            exact ⟨_, rfl, hv, hau⟩
        · exact inv_complete _

theorem inv_cleanup_inactive (s : GCState)
    (h : ∀ out, s.bufferOutput = some out → out.active = false) :
    Inv (cleanupCircularBuffer s) :=
  inv_of_none (cleanup_sync s h).1 (cleanup_sync s h).2

theorem inv_stopClipping {s : GCState} (h : Inv s) : Inv (stopClippingMode s) := by
  unfold stopClippingMode
  split
  · exact h
  · have h1 : Inv (if s.isRecording then
        disconnectReplayBufferSignals { s with isRecording := false } else s) := by
      split
      · exact inv_disconnect h
      · exact h
    exact inv_cleanup h1

theorem inv_connectSaved {s : GCState} (h : Inv s) : Inv (connectSavedHandler s) := by
  unfold connectSavedHandler
  cases hout : s.bufferOutput with
  | none => exact h
  | some out =>
      obtain ⟨h1, h2⟩ := h
      constructor
      · intro ha
        exact absurd (h1 ha) (by simp [hout])
      · intro ha
        obtain ⟨out2, ho2, hv, hau⟩ := h2 ha
        rw [hout] at ho2
        cases ho2
        exact ⟨_, rfl, hv, hau⟩

theorem inv_runPending (r : Bool) {s : GCState} (h : Inv s) :
    Inv (runPendingCallback r s) := by
  unfold runPendingCallback
  cases hp : s.pendingBufferCallback with
  | none => exact h
  | cleanup => exact inv_complete s
  | fastReset =>
      dsimp only
      split
      · exact inv_stopClipping h
      · cases hout : ({ s with pendingBufferCallback := PendingCB.none } : GCState).bufferOutput with
        | none =>
            have hx : s.bufferOutput = Option.none := hout
            refine inv_stopClipping ⟨fun _ => rfl, fun ha => ?_⟩
            obtain ⟨o, ho, -, -⟩ := h.2 ha
            rw [hx] at ho
            exact absurd ho (by simp)
        | some out =>
            have hx : s.bufferOutput = some out := hout
            have hlen : ∀ _ : s.bufferState.isActive = true,
                out.videoEncs.length = 1 ∧ out.audioEncs.length = 1 := by
              intro ha
              obtain ⟨out2, ho2, hv, hau⟩ := h.2 ha
              rw [hx] at ho2
              cases ho2
              exact ⟨hv, hau⟩
            dsimp only
            split
            · refine ⟨fun ha => absurd (h.1 ha) (by simp [hx]), fun ha => ?_⟩
              exact ⟨_, rfl, (hlen ha).1, (hlen ha).2⟩
            · refine inv_stopClipping
                ⟨fun ha => absurd (h.1 ha) (by simp [hx]), fun ha => ?_⟩
              exact ⟨out, rfl, (hlen ha).1, (hlen ha).2⟩

theorem inv_onBufferStopped (r : Bool) {s : GCState} (h : Inv s) :
    Inv (onBufferStopped r s) := by
  unfold onBufferStopped
  dsimp only
  cases hout : s.bufferOutput with
  | none =>
      have hx : s.bufferOutput = Option.none := hout
      refine inv_runPending r ⟨fun _ => rfl, fun ha => ?_⟩
      obtain ⟨o, ho, -, -⟩ := h.2 ha
      rw [hx] at ho
      exact absurd ho (by simp)
  | some out =>
      have hx : s.bufferOutput = some out := hout
      have hlen : ∀ _ : s.bufferState.isActive = true,
          out.videoEncs.length = 1 ∧ out.audioEncs.length = 1 := by
        intro ha
        obtain ⟨out2, ho2, hv, hau⟩ := h.2 ha
        rw [hx] at ho2
        cases ho2
        exact ⟨hv, hau⟩
      dsimp only
      refine inv_runPending r
        ⟨fun ha => absurd (h.1 ha) (by simp [hx]), fun ha => ?_⟩
      exact ⟨_, rfl, (hlen ha).1, (hlen ha).2⟩

theorem inv_onBufferStopTimeout (r : Bool) {s : GCState} (h : Inv s) :
    Inv (onBufferStopTimeout r s) := by
  unfold onBufferStopTimeout
  dsimp only
  cases hout : s.bufferOutput with
  | none => exact inv_runPending r h
  | some out =>
      have hx : s.bufferOutput = some out := hout
      have hlen : ∀ _ : s.bufferState.isActive = true,
          out.videoEncs.length = 1 ∧ out.audioEncs.length = 1 := by
        intro ha
        obtain ⟨out2, ho2, hv, hau⟩ := h.2 ha
        rw [hx] at ho2
        cases ho2
        exact ⟨hv, hau⟩
      dsimp only
      refine inv_runPending r
        ⟨fun ha => absurd (h.1 ha) (by simp [hx]), fun ha => ?_⟩
      split <;> exact ⟨_, rfl, (hlen ha).1, (hlen ha).2⟩

theorem inv_fastReset {s : GCState} (h : Inv s) : Inv ((fastBufferReset s).2) := by
  unfold fastBufferReset
  cases hout : s.bufferOutput with
  | none => exact h
  | some out =>
      dsimp only
      split
      · exact h
      · obtain ⟨h1, h2⟩ := h
        constructor
        · intro ha
          exact absurd (h1 ha) (by simp [hout])
        · intro ha
          obtain ⟨out2, ho2, hv, hau⟩ := h2 ha
          rw [hout] at ho2
          cases ho2
          exact ⟨_, rfl, hv, hau⟩

theorem inv_save (p : Bool) (f : String) {s : GCState} (h : Inv s) :
    Inv ((saveInstantReplay p f s).2) := by
  unfold saveInstantReplay
  split
  · exact h
  · split
    · exact h
    · dsimp only
      split
      · refine inv_disconnect ?_
        refine inv_connectSaved ?_
        refine inv_disconnect ?_
        exact h
      · refine inv_connectSaved ?_
        refine inv_disconnect ?_
        exact h

theorem inv_handleSaved (ok : Bool) (path : String) {s : GCState} (h : Inv s) :
    Inv (handleReplayBufferSaved ok path s) := by
  unfold handleReplayBufferSaved
  dsimp only
  split
  · refine inv_disconnect ?_
    exact h
  · refine inv_disconnect ?_
    exact h

theorem inv_onSaveClipTimeout {s : GCState} (h : Inv s) :
    Inv (onSaveClipTimeout s) := by
  unfold onSaveClipTimeout
  split
  · refine inv_disconnect ?_
    exact h
  · exact h

theorem noOut_inactive {s : GCState} (h : s.bufferOutput = Option.none) :
    ∀ out, s.bufferOutput = some out → out.active = false := by
  intro out ho
  rw [h] at ho
  exact absurd ho (by simp)

theorem inv_updateBufferSettings {s : GCState} (h : Inv s) :
    Inv ((updateBufferSettings s).2) := by
  unfold updateBufferSettings
  cases hout : s.bufferOutput with
  | none => exact h
  | some out =>
      dsimp only
      split
      · have hx : s.bufferOutput = some out := hout
        have hlen : ∀ _ : s.bufferState.isActive = true,
            out.videoEncs.length = 1 ∧ out.audioEncs.length = 1 := by
          intro ha
          obtain ⟨o2, ho2, hv, hau⟩ := h.2 ha
          rw [hx] at ho2
          cases ho2
          exact ⟨hv, hau⟩
        refine ⟨fun ha => absurd (h.1 ha) (by simp [hx]), fun ha => ?_⟩
        exact ⟨_, rfl, (hlen ha).1, (hlen ha).2⟩
      · exact h

theorem updVideo_proj (eng : Eng) (s : GCState) :
    ((updateBufferVideoEncoder eng s).2).bufferOutput = s.bufferOutput ∧
    ((updateBufferVideoEncoder eng s).2).bufferState = s.bufferState := by
  unfold updateBufferVideoEncoder
  dsimp only
  split
  · exact ⟨rfl, rfl⟩
  · split <;> exact ⟨rfl, rfl⟩

theorem updAudio_proj (eng : Eng) (s : GCState) :
    ((updateBufferAudioComponents eng s).2).bufferOutput = s.bufferOutput ∧
    ((updateBufferAudioComponents eng s).2).bufferState = s.bufferState := by
  unfold updateBufferAudioComponents
  have h1 := desktopAudioStep_proj (s.desktopAudioSource = Option.none ∨
      s.bufferState.lastAudioSettings.deviceId ≠ s.audioSettings.deviceId) s
  have h2 := micSourceStep_proj (s.microphoneSource = Option.none ∨
      s.bufferState.lastMicrophoneSettings.deviceId ≠ s.microphoneSettings.deviceId)
      (desktopAudioStep (s.desktopAudioSource = Option.none ∨
        s.bufferState.lastAudioSettings.deviceId ≠ s.audioSettings.deviceId) s)
  have h3 := audioEncoderStep_proj eng (s.bufferAudioEncoder = Option.none ∨
      s.bufferState.lastAudioSettings.bitrate ≠ s.audioSettings.bitrate)
      (micSourceStep (s.microphoneSource = Option.none ∨
        s.bufferState.lastMicrophoneSettings.deviceId ≠ s.microphoneSettings.deviceId)
        (desktopAudioStep (s.desktopAudioSource = Option.none ∨
          s.bufferState.lastAudioSettings.deviceId ≠ s.audioSettings.deviceId) s))
  exact ⟨h3.2.2.2.2.1.trans (h2.2.2.2.2.1.trans h1.2.2.2.1),
         h3.2.2.2.2.2.1.trans (h2.2.2.2.2.2.1.trans h1.2.2.2.2.1)⟩

theorem createOutput_spec (eng : Eng) (s : GCState)
    (hnone : s.bufferOutput = Option.none) :
    ((createBufferOutput eng s).1 = true →
        ∃ o, ((createBufferOutput eng s).2).bufferOutput = some o ∧
          o.videoEncs.length = 1 ∧ o.audioEncs.length = 1 ∧ o.active = false) ∧
    ((createBufferOutput eng s).1 = false →
        ((createBufferOutput eng s).2).bufferOutput = Option.none) ∧
    ((createBufferOutput eng s).2).bufferState = s.bufferState := by
  unfold createBufferOutput
  rw [hnone]
  cases hv : s.bufferVideoEncoder with
  | none => exact ⟨fun hh => absurd hh (by simp), fun _ => hnone, rfl⟩
  | some ve =>
      cases ha : s.bufferAudioEncoder with
      | none => exact ⟨fun hh => absurd hh (by simp), fun _ => hnone, rfl⟩
      | some ae =>
          dsimp only
          rcases hg : getCurrentGameFolder s with ⟨dir, s1⟩
          have hgp := getFolder_proj s
          rw [hg] at hgp
          simp only at hgp
          dsimp only
          split
          · exact ⟨fun _ => ⟨_, rfl, rfl, rfl, rfl⟩,
                   fun hh => absurd hh (by simp),
                   hgp.2.2.2.2.1⟩
          · exact ⟨fun hh => absurd hh (by simp),
                   fun _ => hgp.2.2.2.1.trans hnone,
                   hgp.2.2.2.2.1⟩

theorem startOutput_fail (eng : Eng) (s : GCState) :
    (startBufferOutput eng s).1 = false → (startBufferOutput eng s).2 = s := by
  unfold startBufferOutput
  cases hout : s.bufferOutput with
  | none => intro _; rfl
  | some out =>
      dsimp only
      split
      · intro _; rfl
      · split
        · intro hh; exact absurd hh (by simp)
        · split
          · intro hh; exact absurd hh (by simp)
          · intro _; rfl

theorem startOutput_some (eng : Eng) (s : GCState) (o : BufferOutput)
    (ho : s.bufferOutput = some o) :
    ∃ o2, ((startBufferOutput eng s).2).bufferOutput = some o2 ∧
      o2.videoEncs = o.videoEncs ∧ o2.audioEncs = o.audioEncs := by
  unfold startBufferOutput
  rw [ho]
  dsimp only
  split
  · exact ⟨o, ho, rfl, rfl⟩
  · split
    · exact ⟨o, ho, rfl, rfl⟩
    · split
      · exact ⟨{ o with active := true }, rfl, rfl, rfl⟩
      · exact ⟨o, ho, rfl, rfl⟩

theorem startOutput_state (eng : Eng) (s : GCState) :
    ((startBufferOutput eng s).2).bufferState = s.bufferState := by
  unfold startBufferOutput
  cases hout : s.bufferOutput with
  | none => rfl
  | some out =>
      dsimp only
      split
      · rfl
      · split
        · rfl
        · split <;> rfl

theorem inv_setup (eng : Eng) {s : GCState} (h : Inv s) :
    Inv ((setupCircularBuffer eng s).2) := by
  unfold setupCircularBuffer
  split
  · exact h
  · split
    · exact inv_updateBufferSettings h
    · next hna =>
      have hsa : s.bufferState.isActive = false := by
        cases hsa2 : s.bufferState.isActive
        · rfl
        · exact absurd hsa2 hna
      have hnone : s.bufferOutput = Option.none := h.1 hsa
      rcases hV : updateBufferVideoEncoder eng s with ⟨ok1, s1⟩
      have hVp := updVideo_proj eng s
      rw [hV] at hVp
      simp only at hVp
      have hn1 : s1.bufferOutput = Option.none := hVp.1.trans hnone
      have hb1 : s1.bufferState = s.bufferState := hVp.2
      cases ok1 with
      | false =>
          simp [hV]
          exact inv_cleanup_inactive s1 (noOut_inactive hn1)
      | true =>
          rcases hA : updateBufferAudioComponents eng s1 with ⟨ok2, s2⟩
          have hAp := updAudio_proj eng s1
          rw [hA] at hAp
          simp only at hAp
          have hn2 : s2.bufferOutput = Option.none := hAp.1.trans hn1
          have hb2 : s2.bufferState = s.bufferState := hAp.2.trans hb1
          cases ok2 with
          | false =>
              simp [hV, hA]
              exact inv_cleanup_inactive s2 (noOut_inactive hn2)
          | true =>
              rcases hC : createBufferOutput eng s2 with ⟨ok3, s3⟩
              have hCs := createOutput_spec eng s2 hn2
              rw [hC] at hCs
              simp only at hCs
              have hb3 : s3.bufferState = s.bufferState := hCs.2.2.trans hb2
              cases ok3 with
              | false =>
                  have hn3 : s3.bufferOutput = Option.none := hCs.2.1 rfl
                  simp [hV, hA, hC]
                  exact inv_cleanup_inactive s3 (noOut_inactive hn3)
              | true =>
                  obtain ⟨o, ho, hv1, ha1, hact⟩ := hCs.1 rfl
                  rcases hS : startBufferOutput eng s3 with ⟨ok4, s4⟩
                  cases ok4 with
                  | false =>
                      have hs4 : s4 = s3 := by
                        have := startOutput_fail eng s3
                        rw [hS] at this
                        exact this rfl
                      simp [hV, hA, hC, hS]
                      refine inv_cleanup_inactive s4 ?_
                      intro out hout
                      rw [hs4, ho] at hout
                      cases hout
                      exact hact
                  | true =>
                      have hsome := startOutput_some eng s3 o ho
                      rw [hS] at hsome
                      simp only at hsome
                      obtain ⟨o2, ho2, hv2, ha2⟩ := hsome
                      simp [hV, hA, hC, hS]
                      refine ⟨fun ha => absurd ha (by simp), fun _ => ⟨o2, ?_, ?_, ?_⟩⟩
                      · exact ho2
                      · rw [hv2]
                        exact hv1
                      · rw [ha2]
                        exact ha1

theorem inv_startClipping (eng : Eng) {s : GCState} (h : Inv s) :
    Inv ((startClippingMode eng s).2) := by
  unfold startClippingMode
  split
  · exact h
  · rcases hS : setupCircularBuffer eng s with ⟨ok, s2⟩
    have h2 := inv_setup eng h
    rw [hS] at h2
    simp only at h2
    cases ok with
    | false =>
        simp [hS]
        exact inv_cleanup h2
    | true =>
        simp [hS]
        exact h2

theorem inv_updateEncoding (e : EncodingSettings) {s : GCState} (h : Inv s) :
    Inv (updateEncodingSettings e s) := by
  unfold updateEncodingSettings
  split
  · exact h
  · exact h

theorem inv_updateAudio (a : AudioSettings) {s : GCState} (h : Inv s) :
    Inv (updateAudioSettings a s) := by
  unfold updateAudioSettings
  dsimp only
  cases hds : s.desktopAudioSource with
  | none => exact h
  | some src =>
      dsimp only
      split
      · exact h
      · exact h

theorem inv_updateMicrophone (m : MicrophoneSettings) {s : GCState} (h : Inv s) :
    Inv (updateMicrophoneSettings m s) := by
  unfold updateMicrophoneSettings
  dsimp only
  cases hms : s.microphoneSource with
  | none => exact h
  | some mic => exact h

theorem inv_initOBS (ok : Bool) {s : GCState} (h : Inv s) : Inv (initOBS ok s) := by
  unfold initOBS
  split
  · exact h
  · exact h

theorem inv_shutdown {s : GCState} (h : Inv s) : Inv (shutdownGC s) :=
  inv_stopClipping h

/-- One step of the event loop preserves the buffer-lifecycle
invariant. -/
theorem inv_run (op : Op) {s : GCState} (h : Inv s) : Inv (run s op) := by
  cases op with
  | initOBS ok =>
      exact inv_initOBS ok h
  | startClipping eng =>
      exact inv_startClipping eng h
  | stopClipping =>
      exact inv_stopClipping h
  | bufferStopSignal r =>
      simp only [run]
      cases hout : s.bufferOutput with
      | none => exact h
      | some out =>
          dsimp only
          have hx : s.bufferOutput = some out := hout
          have hlen : ∀ _ : s.bufferState.isActive = true,
              out.videoEncs.length = 1 ∧ out.audioEncs.length = 1 := by
            intro ha
            obtain ⟨out2, ho2, hv, hau⟩ := h.2 ha
            rw [hx] at ho2
            cases ho2
            exact ⟨hv, hau⟩
          have h1 : Inv { s with bufferOutput := some { out with active := false } } :=
            ⟨fun ha => absurd (h.1 ha) (by simp [hx]),
             fun ha => ⟨_, rfl, (hlen ha).1, (hlen ha).2⟩⟩
          split
          · exact inv_onBufferStopped r h1
          · exact h1
  | bufferStopTimeout r =>
      simp only [run]
      split
      · exact inv_onBufferStopTimeout r h
      · exact h
  | saveReplay p f =>
      exact inv_save p f h
  | savedSignal ok path =>
      simp only [run]
      cases hout : s.bufferOutput with
      | none => exact h
      | some out =>
          dsimp only
          split
          · exact inv_handleSaved ok path h
          · exact h
  | saveTimeout =>
      simp only [run]
      split
      · exact inv_onSaveClipTimeout h
      · exact h
  | postSaveReset =>
      simp only [run]
      split
      · rcases hf : fastBufferReset s with ⟨ok, s1⟩
        have h1 := inv_fastReset h
        rw [hf] at h1
        simp only at h1
        dsimp only
        split
        · exact h1
        · exact inv_stopClipping h1
      · exact h
  | fastResetVerify =>
      simp only [run]
      split
      · exact inv_stopClipping h
      · exact h
  | setEncoding e =>
      exact inv_updateEncoding e h
  | setAudio a =>
      exact inv_updateAudio a h
  | setMicrophone m =>
      exact inv_updateMicrophone m h
  | setBufferDuration n =>
      exact h
  | tick dt =>
      exact h
  | shutdown =>
      exact inv_shutdown h

/-- C3: in every reachable state of the buffer lifecycle manager, when
BufferState.isActive is false no buffer output object exists, and when
it is true exactly one buffer output object exists, attached to
exactly one video encoder and one audio encoder. -/
theorem c3_buffer_output_invariant (s : GCState) (h : Reachable s) : Inv s := by
  induction h with
  | init => exact ⟨fun _ => rfl, fun ha => absurd ha (by decide)⟩
  | step op _ ih => exact inv_run op ih

/-- C3 witness: the invariant holds at the concrete state after
initialization and a successful Start. -/
theorem c3_witness :
    Inv (run (run initialState (.initOBS true)) (.startClipping {})) :=
  c3_buffer_output_invariant _ (Reachable.step _ (Reachable.step _ Reachable.init))

end OBSReplay
